import Mathlib

/-!
Configuration manager of the OpenVPN 3 Linux client

A shallow embedding of `src/configmgr/configmgr.hpp`: the configuration
objects exported on the D-Bus connection, their aliases, the manager object
creating them, and the callbacks handling method calls, property reads and
property writes.

Conventions of the embedding.

* A C++ object reached through `this` is a value; a callback receives it and
  returns its state after the call, or `none` when the callback ran
  `delete this`.
* The `GDBusConnection` together with the idle checker is the value `Service`:
  the objects currently exported, the idle checker's counters, and the state
  the path generator draws from.
* A `sender` is identified with the uid the credential resolver maps it to.
* A C++ exception leaving a callback is a `Reply.error`.
* Parts of the repository that are not in `configmgr.hpp` (the credentials
  base class, the object base class, the idle checker, constants and library
  calls) are either fields of `Env` or definitions marked as modelled from
  the specification.
-/

namespace ConfigMgr

/-- Numeric principal id of a calling peer. -/
abbrev uid_t := Nat

/-- The parsed profile `OptionListJSON` of the OpenVPN 3 core library: a list
of options, each a list of strings.  It is only ever produced by the parser
and handed to the two export functions. -/
structure OptionListJSON where
  opts : List (List String)
deriving DecidableEq, Repr

/-- Constants and library calls that `configmgr.hpp` uses and does not define. -/
structure Env where
  /-- Constant `OpenVPN3DBus_rootp_configuration`. -/
  OpenVPN3DBus_rootp_configuration : String
  /-- GLib `g_variant_is_object_path`. -/
  g_variant_is_object_path : String → Bool
  /-- Method `OptionList::parse_from_config` under the `ProfileParseLimits`; `none` when it throws. -/
  parse_from_config : String → Option OptionListJSON
  /-- Method `OptionListJSON::string_export`. -/
  string_export : OptionListJSON → String
  /-- Method `OptionListJSON::json_export`. -/
  json_export : OptionListJSON → String
  /-- Function `generate_path_uuid(root, delimiter)`, as a function of the generator state. -/
  generate_path_uuid : String → Char → Nat → String

/-- The `GVariant` values that cross the callbacks. -/
inductive GVariant
  | boolean (b : Bool)
  | string (s : String)
  | uint32 (n : Nat)
  | array_uint32 (l : List Nat)
  | tuple_s (s : String)
  | tuple_u (u : Nat)
  | tuple_o (p : String)
  | tuple_ss (a b : String)
  | tuple_ssbb (name cfg : String) (single_use persistent : Bool)
  | property_response (property_name : String) (v : GVariant)
deriving DecidableEq, Repr

/-- GLib `g_variant_get_string`; values of another type are outside its contract. -/
def g_variant_get_string : GVariant → String
  | .string s => s
  | _ => ""

/-- GLib `g_variant_get_boolean`; `FALSE` for a value of another type. -/
def g_variant_get_boolean : GVariant → Bool
  | .boolean b => b
  | _ => false

/-- The codes of `G_IO_ERROR` used by the callbacks. -/
inductive GIOErrorEnum
  | G_IO_ERROR_FAILED
  | G_IO_ERROR_READ_ONLY
  | G_IO_ERROR_EXISTS
deriving DecidableEq, Repr

/-- The errors a call can be answered with. -/
inductive DBusError
  /-- A `DBusCredentialsException` reported with `SetDBusError`: access denied. -/
  | credentials
  /-- Reply sent by `g_dbus_method_invocation_return_dbus_error(invoc, name, message)`. -/
  | dbus_error (name message : String)
  /-- Error set by `g_set_error(error, G_IO_ERROR, code, message)`. -/
  | g_io_error (code : GIOErrorEnum) (message : String)
  /-- A `DBusPropertyException(G_IO_ERROR, code, ..., message)`. -/
  | property (code : GIOErrorEnum) (message : String)
  /-- A `DBusPropertyException(G_IO_ERROR, G_IO_ERROR_FAILED, ..., excp.getUserError())`
  raised for a `DBusCredentialsException`: access denied on a property write. -/
  | property_credentials
  /-- A `DBusException` raised by `THROW_DBUSEXCEPTION(classname, message)`. -/
  | exception (classname message : String)
  /-- No object is exported at the path the call is addressed to. -/
  | unknown_object
deriving DecidableEq, Repr

/-- Method `DBusException::getRawError`: the message the exception was thrown with. -/
def DBusError.getRawError : DBusError → String
  | .exception _ message => message
  | _ => ""

/-- What the calling peer receives. -/
inductive Reply
  | return_value (v : Option GVariant)
  | error (e : DBusError)
  | no_reply
deriving DecidableEq, Repr

/-- Modelled from the spec: the class `DBusCredentials` (dbus/connection-creds.hpp)
is not in configmgr.hpp; its state is the AccessControl record of the
specification: the owner, the granted ids and the public flag. -/
structure DBusCredentials where
  owner : uid_t
  acl_list : List uid_t
  acl_public : Bool
deriving DecidableEq, Repr

namespace DBusCredentials

/-- Modelled from the spec: the constructor `DBusCredentials(dbuscon, creator)` is
missing; the creator becomes the owner, nobody is granted access and public
access is off. -/
def new (creator : uid_t) : DBusCredentials :=
  { owner := creator, acl_list := [], acl_public := false }

/-- Modelled from the spec: `CheckOwnerAccess(sender)` is missing; mode OwnerOnly is
true iff the caller is the owner.  `false` stands for the thrown
`DBusCredentialsException`. -/
def CheckOwnerAccess (c : DBusCredentials) (sender : uid_t) : Bool :=
  sender == c.owner

/-- Modelled from the spec: `CheckACL(sender, flag)` is missing; mode Read is true
iff the caller is the owner, or is granted, or public read is on and the call
site allows the public override (the flag; `false` when the call site omits
it).  `false` stands for the thrown `DBusCredentialsException`. -/
def CheckACL (c : DBusCredentials) (sender : uid_t) (allow_public : Bool) : Bool :=
  sender == c.owner || c.acl_list.contains sender || (c.acl_public && allow_public)

/-- Modelled from the spec: `GrantAccess(uid)` is missing; it adds the id to the
granted set and succeeds silently when the id is already there. -/
def GrantAccess (c : DBusCredentials) (uid : uid_t) : DBusCredentials :=
  { c with acl_list := if c.acl_list.contains uid then c.acl_list else uid :: c.acl_list }

/-- Modelled from the spec: `RevokeAccess(uid)` is missing; it removes the id from
the granted set and succeeds silently when the id is absent. -/
def RevokeAccess (c : DBusCredentials) (uid : uid_t) : DBusCredentials :=
  { c with acl_list := c.acl_list.filter (fun u => u != uid) }

/-- Modelled from the spec: `SetPublicAccess(flag)` is missing; it sets the public flag. -/
def SetPublicAccess (c : DBusCredentials) (acl_public : Bool) : DBusCredentials :=
  { c with acl_public := acl_public }

/-- Modelled from the spec: `GetOwner()` is missing; the owner as a uint32 value. -/
def GetOwner (c : DBusCredentials) : GVariant := .uint32 c.owner

/-- Modelled from the spec: `GetPublicAccess()` is missing; the public flag as a boolean value. -/
def GetPublicAccess (c : DBusCredentials) : GVariant := .boolean c.acl_public

/-- Modelled from the spec: `GetAccessList()` is missing; the granted ids as an array. -/
def GetAccessList (c : DBusCredentials) : GVariant := .array_uint32 c.acl_list

end DBusCredentials

/-- Class `ConfigurationAlias`: its object path (base class `DBusObject`), the
alias name and the path of the configuration it points to. -/
structure ConfigurationAlias where
  object_path : String
  /-- Member `alias` (the word is reserved in Lean). -/
  aliasname : String
  cfgpath : String
deriving DecidableEq, Repr

/-- Class `ConfigurationObject`: its object path (base class `DBusObject`), its
credentials (base class `DBusCredentials`) and its private members. -/
structure ConfigurationObject where
  object_path : String
  creds : DBusCredentials
  name : String
  valid : Bool
  readonly : Bool
  single_use : Bool
  persistent : Bool
  /-- Member `alias` (the word is reserved in Lean); `none` is `nullptr`. -/
  alias_obj : Option ConfigurationAlias
  options : OptionListJSON
deriving DecidableEq, Repr

/-- Class `ConfigManagerObject`: only its object path matters here. -/
structure ConfigManagerObject where
  object_path : String
deriving DecidableEq, Repr

/-- An object exported on the connection. -/
inductive DBusObject
  | config (o : ConfigurationObject)
  | cfgalias (a : ConfigurationAlias)
  | manager (m : ConfigManagerObject)
deriving DecidableEq, Repr

/-- Method `DBusObject::GetObjectPath`. -/
def DBusObject.GetObjectPath : DBusObject → String
  | .config o => o.object_path
  | .cfgalias a => a.object_path
  | .manager m => m.object_path

/-- Modelled from the spec: the idle checker (the supervisor) is missing; it
counts the live references and is told of every processed call. -/
structure IdleCheck where
  refcount : Int
  timestamp_updates : Nat
deriving DecidableEq, Repr

/-- The connection and process state the callbacks act on. -/
structure Service where
  /-- The exported objects. -/
  objects : List DBusObject
  idle_checker : IdleCheck
  /-- State of the generator behind `generate_path_uuid`. -/
  uuid_state : Nat
deriving DecidableEq, Repr

namespace Service

/-- Modelled from the spec: `IdleCheck_UpdateTimestamp()` is missing; supervisor `touch`. -/
def IdleCheck_UpdateTimestamp (conn : Service) : Service :=
  { conn with idle_checker :=
      { conn.idle_checker with timestamp_updates := conn.idle_checker.timestamp_updates + 1 } }

/-- Modelled from the spec: `IdleCheck_RefInc()` is missing; supervisor `ref_inc`. -/
def IdleCheck_RefInc (conn : Service) : Service :=
  { conn with idle_checker := { conn.idle_checker with refcount := conn.idle_checker.refcount + 1 } }

/-- Modelled from the spec: `IdleCheck_RefDec()` is missing; supervisor `ref_dec`. -/
def IdleCheck_RefDec (conn : Service) : Service :=
  { conn with idle_checker := { conn.idle_checker with refcount := conn.idle_checker.refcount - 1 } }

/-- Modelled from the spec: `DBusObject::RemoveObject(conn)` is missing; endpoint
`unregister(path)` for the path of the object it is called on. -/
def RemoveObject (conn : Service) (object_path : String) : Service :=
  { conn with objects := conn.objects.filter (fun o => o.GetObjectPath != object_path) }

/-- The object exported at a path, if any. -/
def lookup (conn : Service) (object_path : String) : Option DBusObject :=
  conn.objects.find? (fun o => o.GetObjectPath == object_path)

/-- The set of registered endpoint paths. -/
def paths (conn : Service) : List String :=
  conn.objects.map DBusObject.GetObjectPath

/-- Modelled from the spec: `DBusObject::RegisterObject(conn)` is missing; endpoint
`register(path, resource)` for the object it is called on.  A path holds one
object: when an object is already exported at the path the endpoint refuses
the second export (GDBus reports `G_IO_ERROR_EXISTS`) and the method throws a
`DBusException`, the name conflict of alias creation; otherwise the object is
exported at its path. -/
def RegisterObject (conn : Service) (obj : DBusObject) : Except DBusError Service :=
  match conn.lookup obj.GetObjectPath with
  | some _ => .error (.exception "DBusObject" "An object is already exported at this path")
  | none => .ok { conn with objects := obj :: conn.objects }

end Service

/-- Outcome of a callback: the reply, the object the callback ran on (`none`
after `delete this`) and the service state. -/
structure Result (α : Type) where
  reply : Reply
  self : Option α
  conn : Service
deriving DecidableEq, Repr

namespace ConfigurationAlias

/-- The object path of the alias named `aliasname`: the local `new_obj_path` of
the constructor, `OpenVPN3DBus_rootp_configuration + "/aliases/" + aliasname`. -/
def new_obj_path (env : Env) (aliasname : String) : String :=
  env.OpenVPN3DBus_rootp_configuration ++ "/aliases/" ++ aliasname

/-- Constructor `ConfigurationAlias(dbuscon, aliasname, cfgpath)`.  The object
path is the configuration root followed by `/aliases/` and the alias name; a
`DBusException` is thrown when that is not a D-Bus object path. -/
def new (env : Env) (aliasname cfgpath : String) : Except DBusError ConfigurationAlias :=
  if !env.g_variant_is_object_path (new_obj_path env aliasname) then
    .error (.exception "ConfigurationAlias" "Specified alias is invalid")
  else
    .ok { object_path := new_obj_path env aliasname, aliasname := aliasname, cfgpath := cfgpath }

/-- Method `ConfigurationAlias::GetAlias`. -/
def GetAlias (this : ConfigurationAlias) : String := this.aliasname

/-- Method `ConfigurationAlias::callback_method_call`: not implemented, throws. -/
def callback_method_call (this : ConfigurationAlias) (conn : Service) (_sender : uid_t)
    (_method_name : String) (_params : GVariant) : Result ConfigurationAlias :=
  ⟨.error (.exception "ConfigManagerAlias" "method_call not implemented"), some this, conn⟩

/-- Method `ConfigurationAlias::callback_get_property`: only `config_path` is known. -/
def callback_get_property (this : ConfigurationAlias) (conn : Service) (_sender : uid_t)
    (property_name : String) : Result ConfigurationAlias :=
  if "config_path" == property_name then
    ⟨.return_value (some (.string this.cfgpath)), some this, conn⟩
  else
    ⟨.error (.g_io_error .G_IO_ERROR_FAILED "Unknown property"), some this, conn⟩

/-- Method `ConfigurationAlias::callback_set_property`: not implemented, throws. -/
def callback_set_property (this : ConfigurationAlias) (conn : Service) (_sender : uid_t)
    (_property_name : String) (_value : GVariant) : Result ConfigurationAlias :=
  ⟨.error (.exception "ConfigManagerAlias" "set property not implemented"), some this, conn⟩

end ConfigurationAlias

namespace ConfigurationObject

/-- Constructor `ConfigurationObject(dbuscon, objpath, creator, params)`: the
members are initialised, the `(ssbb)` parameters are read, the profile is
parsed (the parser may throw) and the object is marked valid. -/
def new (env : Env) (objpath : String) (creator : uid_t) (params : GVariant) :
    Except DBusError ConfigurationObject :=
  match params with
  | .tuple_ssbb cfgname_c cfgstr single_use persistent =>
    match env.parse_from_config cfgstr with
    | none => .error (.exception "OptionList" "parse_from_config")
    | some options =>
      .ok { object_path := objpath
            creds := DBusCredentials.new creator
            name := cfgname_c
            valid := true
            readonly := false
            single_use := single_use
            persistent := persistent
            alias_obj := none
            options := options }
  | _ => .error (.exception "GVariant" "g_variant_get")

/-- Destructor `~ConfigurationObject()`: the idle checker loses a reference.
Nothing is done about the alias object. -/
def destroy (_this : ConfigurationObject) (conn : Service) : Service :=
  conn.IdleCheck_RefDec

/-- The reply sent when a method is called on a sealed configuration. -/
def readonly_error : Reply :=
  .error (.dbus_error "net.openvpn.v3.error.ReadOnly" "Configuration is sealed and readonly")

/-- Method `ConfigurationObject::callback_method_call`. -/
def callback_method_call (env : Env) (this : ConfigurationObject) (conn : Service)
    (sender : uid_t) (method_name : String) (params : GVariant) :
    Result ConfigurationObject :=
  let conn := conn.IdleCheck_UpdateTimestamp
  if "Fetch" == method_name then
    if this.creds.CheckACL sender true then
      let reply := Reply.return_value (some (.tuple_s (env.string_export this.options)))
      if this.single_use then
        -- RemoveObject(conn); delete this;
        ⟨reply, none, this.destroy (conn.RemoveObject this.object_path)⟩
      else
        ⟨reply, some this, conn⟩
    else
      ⟨.error .credentials, some this, conn⟩
  else if "FetchJSON" == method_name then
    if this.creds.CheckACL sender false then
      ⟨.return_value (some (.tuple_s (env.json_export this.options))), some this, conn⟩
    else
      ⟨.error .credentials, some this, conn⟩
  else if "SetOption" == method_name then
    if this.readonly then
      ⟨readonly_error, some this, conn⟩
    else if this.creds.CheckOwnerAccess sender then
      -- TODO: Implement SetOption
      ⟨.return_value none, some this, conn⟩
    else
      ⟨.error .credentials, some this, conn⟩
  else if "AccessGrant" == method_name then
    if this.readonly then
      ⟨readonly_error, some this, conn⟩
    else if this.creds.CheckOwnerAccess sender then
      -- uid_t uid = -1; g_variant_get(params, "(u)", &uid);
      let uid : uid_t := match params with
        | .tuple_u u => u
        | _ => 4294967295
      ⟨.return_value none, some { this with creds := this.creds.GrantAccess uid }, conn⟩
    else
      ⟨.error .credentials, some this, conn⟩
  else if "AccessRevoke" == method_name then
    if this.readonly then
      ⟨readonly_error, some this, conn⟩
    else if this.creds.CheckOwnerAccess sender then
      let uid : uid_t := match params with
        | .tuple_u u => u
        | _ => 4294967295
      ⟨.return_value none, some { this with creds := this.creds.RevokeAccess uid }, conn⟩
    else
      ⟨.error .credentials, some this, conn⟩
  else if "Seal" == method_name then
    if this.creds.CheckOwnerAccess sender then
      if this.valid then
        ⟨.return_value none, some { this with readonly := true }, conn⟩
      else
        ⟨.error (.dbus_error "net.openvpn.v3.error.InvalidData"
                   "Configuration is not currently valid"), some this, conn⟩
    else
      ⟨.error .credentials, some this, conn⟩
  else if "Remove" == method_name then
    if this.creds.CheckOwnerAccess sender then
      -- RemoveObject(conn); reply; delete this;
      ⟨.return_value none, none, this.destroy (conn.RemoveObject this.object_path)⟩
    else
      ⟨.error .credentials, some this, conn⟩
  else
    ⟨.no_reply, some this, conn⟩

/-- Method `ConfigurationObject::callback_get_property`. -/
def callback_get_property (this : ConfigurationObject) (conn : Service)
    (sender : uid_t) (property_name : String) : Result ConfigurationObject :=
  let conn := conn.IdleCheck_UpdateTimestamp
  if "owner" == property_name then
    ⟨.return_value (some this.creds.GetOwner), some this, conn⟩
  else if this.creds.CheckACL sender false then
    let ret : Reply :=
      if "single_use" == property_name then
        .return_value (some (.boolean this.single_use))
      else if "persistent" == property_name then
        .return_value (some (.boolean this.persistent))
      else if "valid" == property_name then
        .return_value (some (.boolean this.valid))
      else if "readonly" == property_name then
        .return_value (some (.boolean this.readonly))
      else if "name" == property_name then
        .return_value (some (.string this.name))
      else if "alias" == property_name then
        .return_value (some (.string (match this.alias_obj with
          | some a => a.GetAlias
          | none => "")))
      else if "public_access" == property_name then
        .return_value (some this.creds.GetPublicAccess)
      else if "acl" == property_name then
        .return_value (some this.creds.GetAccessList)
      else
        .error (.g_io_error .G_IO_ERROR_FAILED "Unknown property")
    ⟨ret, some this, conn⟩
  else
    ⟨.error .credentials, some this, conn⟩

/-- Method `ConfigurationObject::callback_set_property`.  The connection handed
to the callback is never null. -/
def callback_set_property (env : Env) (this : ConfigurationObject) (conn : Service)
    (sender : uid_t) (property_name : String) (value : GVariant) :
    Result ConfigurationObject :=
  let conn := conn.IdleCheck_UpdateTimestamp
  if this.readonly then
    ⟨.error (.property .G_IO_ERROR_READ_ONLY "Configuration object is read-only"),
      some this, conn⟩
  else if this.creds.CheckOwnerAccess sender then
    if "alias" == property_name then
      -- if (nullptr != alias) { alias->RemoveObject(conn); delete alias; alias = nullptr; }
      let conn := match this.alias_obj with
        | some a => conn.RemoveObject a.object_path
        | none => conn
      let this := { this with alias_obj := none }
      match ConfigurationAlias.new env (g_variant_get_string value) this.object_path with
      | .ok a =>
        -- alias = new ConfigurationAlias(...); alias->RegisterObject(conn);
        match conn.RegisterObject (.cfgalias a) with
        | .ok conn =>
          ⟨.return_value (some (.property_response property_name (.string a.GetAlias))),
            some { this with alias_obj := some a }, conn⟩
        | .error err =>
          -- delete alias; alias = nullptr; throw DBusPropertyException(... G_IO_ERROR_EXISTS ...)
          ⟨.error (.property .G_IO_ERROR_EXISTS err.getRawError), some this, conn⟩
      | .error err =>
        -- delete alias; alias = nullptr; throw DBusPropertyException(... G_IO_ERROR_EXISTS ...)
        ⟨.error (.property .G_IO_ERROR_EXISTS err.getRawError), some this, conn⟩
    else if "public_access" == property_name then
      let acl_public := g_variant_get_boolean value
      ⟨.return_value (some (.property_response property_name (.boolean acl_public))),
        some { this with creds := this.creds.SetPublicAccess acl_public }, conn⟩
    else
      ⟨.error (.property .G_IO_ERROR_FAILED "Denied"), some this, conn⟩
  else
    ⟨.error .property_credentials, some this, conn⟩

end ConfigurationObject

namespace ConfigManagerObject

/-- Method `ConfigManagerObject::callback_method_call`: `Import` creates a
configuration object owned by the sender under a generated path, takes a
reference on the idle checker and registers the object.  An exception of the
constructor or of the registration leaves the callback. -/
def callback_method_call (env : Env) (this : ConfigManagerObject) (conn : Service)
    (sender : uid_t) (method_name : String) (params : GVariant) :
    Result ConfigManagerObject :=
  let conn := conn.IdleCheck_UpdateTimestamp
  if "Import" == method_name then
    let cfgpath := env.generate_path_uuid env.OpenVPN3DBus_rootp_configuration 'x' conn.uuid_state
    let conn := { conn with uuid_state := conn.uuid_state + 1 }
    match ConfigurationObject.new env cfgpath sender params with
    | .error err => ⟨.error err, some this, conn⟩
    | .ok cfgobj =>
      let conn := conn.IdleCheck_RefInc
      match conn.RegisterObject (.config cfgobj) with
      | .ok conn => ⟨.return_value (some (.tuple_o cfgpath)), some this, conn⟩
      | .error err =>
        -- the exception leaves the callback; the reference taken above is kept
        ⟨.error err, some this, conn⟩
  else
    ⟨.no_reply, some this, conn⟩

/-- Method `ConfigManagerObject::callback_get_property`: no property is known. -/
def callback_get_property (this : ConfigManagerObject) (conn : Service) (_sender : uid_t)
    (_property_name : String) : Result ConfigManagerObject :=
  ⟨.error (.g_io_error .G_IO_ERROR_FAILED "Unknown property"), some this,
    conn.IdleCheck_UpdateTimestamp⟩

/-- Method `ConfigManagerObject::callback_set_property`: not implemented, throws. -/
def callback_set_property (this : ConfigManagerObject) (conn : Service) (_sender : uid_t)
    (_property_name : String) (_value : GVariant) : Result ConfigManagerObject :=
  ⟨.error (.exception "ConfigManagerObject" "get property not implemented"), some this, conn⟩

end ConfigManagerObject

/-- A call a peer addresses to an object path. -/
inductive Call
  | method_call (method_name : String) (params : GVariant)
  | get_property (property_name : String)
  | set_property (property_name : String) (value : GVariant)
deriving DecidableEq, Repr

/-- One call on a configuration object, through the callback for its kind. -/
def ConfigurationObject.handle (env : Env) (this : ConfigurationObject) (conn : Service)
    (sender : uid_t) : Call → Result ConfigurationObject
  | .method_call method_name params => this.callback_method_call env conn sender method_name params
  | .get_property property_name => this.callback_get_property conn sender property_name
  | .set_property property_name value =>
    this.callback_set_property env conn sender property_name value

/-- The configuration object exported at the path of `this` takes the state of `this`:
the exported object and the object the callback changed are the same C++ object. -/
def Service.store (conn : Service) (this : ConfigurationObject) : Service :=
  { conn with objects := conn.objects.map (fun o =>
      match o with
      | .config c => if c.object_path == this.object_path then .config this else o
      | _ => o) }

/-- Modelled from the spec: the endpoint's dispatch (dbus/core.hpp) is missing.  A
call addressed to a path where nothing is registered is answered with the
unknown-object error (NotFound); otherwise the callback of the registered
object handles it. -/
def dispatch (env : Env) (conn : Service) (obj_path : String) (sender : uid_t)
    (call : Call) : Reply × Service :=
  match conn.lookup obj_path with
  | none => (.error .unknown_object, conn)
  | some (.config this) =>
    let r := this.handle env conn sender call
    (r.reply, match r.self with
      | some t => r.conn.store t
      | none => r.conn)
  | some (.cfgalias a) =>
    let r := match call with
      | .method_call method_name params => a.callback_method_call conn sender method_name params
      | .get_property property_name => a.callback_get_property conn sender property_name
      | .set_property property_name value =>
        a.callback_set_property conn sender property_name value
    (r.reply, r.conn)
  | some (.manager m) =>
    let r := match call with
      | .method_call method_name params =>
        m.callback_method_call env conn sender method_name params
      | .get_property property_name => m.callback_get_property conn sender property_name
      | .set_property property_name value =>
        m.callback_set_property conn sender property_name value
    (r.reply, r.conn)

/-- A sequence of calls, each with its target path and sender, dispatched in
order: the replies and the final state. -/
def dispatch_all (env : Env) (conn : Service) :
    List (String × uid_t × Call) → List Reply × Service
  | [] => ([], conn)
  | (obj_path, sender, call) :: rest =>
    let r := dispatch env conn obj_path sender call
    let rs := dispatch_all env r.2 rest
    (r.1 :: rs.1, rs.2)

/-- A sequence of calls handled by one configuration object, for as long as it
is alive: its state after the last call (`none` once destroyed) and the
service state. -/
def ConfigurationObject.run (env : Env) (this : ConfigurationObject) (conn : Service) :
    List (uid_t × Call) → Option ConfigurationObject × Service
  | [] => (some this, conn)
  | (sender, call) :: rest =>
    let r := this.handle env conn sender call
    match r.self with
    | some t => ConfigurationObject.run env t r.conn rest
    | none => (none, r.conn)

/-- The lines of a text, the current line being accumulated in reverse. -/
def demoLines : List Char → List Char → List String
  | [], acc => [String.mk acc.reverse]
  | c :: cs, acc =>
    if c == '\n' then String.mk acc.reverse :: demoLines cs [] else demoLines cs (c :: acc)

/-- A concrete environment: the configuration root of the service, object
paths as GLib defines them, a parser taking each line as an option and
refusing profiles above 262144 characters. -/
def demoEnv : Env where
  OpenVPN3DBus_rootp_configuration := "/net/openvpn/v3/configuration"
  g_variant_is_object_path := fun s =>
    s.data.head? == some '/' &&
    s.data.all (fun c => c.isAlphanum || c == '_' || c == '/') &&
    (s.data.length == 1 || s.data.getLast? != some '/') &&
    !(s.data.zip s.data.tail).any (fun p => p.1 == '/' && p.2 == '/')
  parse_from_config := fun s =>
    if s.data.length > 262144 then none else some ⟨(demoLines s.data []).map (fun l => [l])⟩
  string_export := fun o => "\n".intercalate (o.opts.map (fun l => " ".intercalate l))
  json_export := fun o => "[" ++ ",".intercalate (o.opts.map (fun l => " ".intercalate l)) ++ "]"
  generate_path_uuid := fun root delim n => root ++ "/" ++ String.mk [delim] ++ toString n

/-- A configuration owned by uid 1000, exported at `/net/openvpn/v3/configuration/x1`. -/
def demoConfig : ConfigurationObject where
  object_path := "/net/openvpn/v3/configuration/x1"
  creds := { owner := 1000, acl_list := [], acl_public := false }
  name := "home"
  valid := true
  readonly := false
  single_use := false
  persistent := false
  alias_obj := none
  options := ⟨[["client"]]⟩

/-- The alias `foo` of `demoConfig`, as its constructor builds it. -/
def demoAlias : ConfigurationAlias where
  object_path := "/net/openvpn/v3/configuration/aliases/foo"
  aliasname := "foo"
  cfgpath := "/net/openvpn/v3/configuration/x1"

/-- The configuration `demoConfig` after its owner wrote `alias = foo`. -/
def demoAliased : ConfigurationObject := { demoConfig with alias_obj := some demoAlias }

/-- A service exporting the manager, `demoAliased` and its alias. -/
def demoAliasedService : Service where
  objects := [.cfgalias demoAlias, .manager ⟨"/net/openvpn/v3/configuration"⟩,
    .config demoAliased]
  idle_checker := { refcount := 1, timestamp_updates := 0 }
  uuid_state := 2

/-- A single-use configuration with the alias `foo`. -/
def demoSingleUse : ConfigurationObject := { demoAliased with single_use := true }

/-- A service exporting the manager, `demoSingleUse` and its alias. -/
def demoSingleUseService : Service where
  objects := [.cfgalias demoAlias, .manager ⟨"/net/openvpn/v3/configuration"⟩,
    .config demoSingleUse]
  idle_checker := { refcount := 1, timestamp_updates := 0 }
  uuid_state := 2

/-- The alias `bar` of the configuration at `/net/openvpn/v3/configuration/x2`. -/
def demoBarAlias : ConfigurationAlias where
  object_path := "/net/openvpn/v3/configuration/aliases/bar"
  aliasname := "bar"
  cfgpath := "/net/openvpn/v3/configuration/x2"

/-- A second configuration, owned by uid 2000, whose owner wrote `alias = bar`. -/
def demoOther : ConfigurationObject where
  object_path := "/net/openvpn/v3/configuration/x2"
  creds := { owner := 2000, acl_list := [], acl_public := false }
  name := "work"
  valid := true
  readonly := false
  single_use := false
  persistent := false
  alias_obj := some demoBarAlias
  options := ⟨[["client"]]⟩

/-- A service exporting the manager, `demoConfig`, and `demoOther` with its alias `bar`. -/
def demoSharedService : Service where
  objects := [.cfgalias demoBarAlias, .config demoOther,
    .config demoConfig, .manager ⟨"/net/openvpn/v3/configuration"⟩]
  idle_checker := { refcount := 2, timestamp_updates := 3 }
  uuid_state := 3

/-- A service exporting the manager, `demoAliased` with its alias `foo`, and
`demoOther` with its alias `bar`. -/
def demoSharedAliasedService : Service where
  objects := [.cfgalias demoAlias, .cfgalias demoBarAlias, .config demoOther,
    .config demoAliased, .manager ⟨"/net/openvpn/v3/configuration"⟩]
  idle_checker := { refcount := 2, timestamp_updates := 4 }
  uuid_state := 3

/-- The spec's words for an alias name: a syntactically valid identifier or
path segment, a non-empty string of the characters `[A-Z][a-z][0-9]_`. -/
def spec_valid_path_segment (aliasname : String) : Bool :=
  !aliasname.data.isEmpty && aliasname.data.all (fun c => c.isAlphanum || c == '_')

/-- The calls that import `home` as uid 1000 and `work` as uid 2000 and give
`work` the alias `bar`, each with its target path and sender. -/
def demoSharedCalls : List (String × uid_t × Call) :=
  [("/net/openvpn/v3/configuration", 1000,
      .method_call "Import" (.tuple_ssbb "home" "client" false false)),
   ("/net/openvpn/v3/configuration", 2000,
      .method_call "Import" (.tuple_ssbb "work" "client" false false)),
   ("/net/openvpn/v3/configuration/x2", 2000, .set_property "alias" (.string "bar"))]

/-- A service exporting the manager only, before any import. -/
def demoEmptyService : Service where
  objects := [.manager ⟨"/net/openvpn/v3/configuration"⟩]
  idle_checker := { refcount := 0, timestamp_updates := 0 }
  uuid_state := 1

/-- The configuration `demoConfig` after its owner sealed it. -/
def demoSealed : ConfigurationObject := { demoConfig with readonly := true }

/-- A service exporting the manager and `demoConfig`. -/
def demoService : Service where
  objects := [.manager ⟨"/net/openvpn/v3/configuration"⟩, .config demoConfig]
  idle_checker := { refcount := 1, timestamp_updates := 0 }
  uuid_state := 2

/-! ## The exported objects -/

theorem Service.lookup_path (conn : Service) (p : String) (o : DBusObject)
    (h : conn.lookup p = some o) : o.GetObjectPath = p := by
  have := List.find?_some h
  simpa using this

theorem Service.lookup_RemoveObject_self (conn : Service) (p : String) :
    (conn.RemoveObject p).lookup p = none := by
  simp [Service.lookup, Service.RemoveObject, List.find?_eq_none]

theorem Service.lookup_RemoveObject_ne (conn : Service) (p q : String) (h : q ≠ p) :
    (conn.RemoveObject p).lookup q = conn.lookup q := by
  simp only [Service.lookup, Service.RemoveObject, List.find?_filter]
  congr 1
  funext o
  by_cases ho : o.GetObjectPath = q
  · subst ho; simp [h]
  · simp [ho]

theorem Service.RegisterObject_ok (conn : Service) (o : DBusObject)
    (h : conn.lookup o.GetObjectPath = none) :
    conn.RegisterObject o = .ok { conn with objects := o :: conn.objects } := by
  simp [Service.RegisterObject, h]

theorem Service.RegisterObject_error (conn : Service) (o o1 : DBusObject)
    (h : conn.lookup o.GetObjectPath = some o1) :
    conn.RegisterObject o
      = .error (.exception "DBusObject" "An object is already exported at this path") := by
  simp [Service.RegisterObject, h]

theorem Service.lookup_cons_self (conn : Service) (o : DBusObject) :
    Service.lookup { conn with objects := o :: conn.objects } o.GetObjectPath = some o := by
  simp [Service.lookup]

theorem Service.lookup_cons_ne (conn : Service) (o : DBusObject) (q : String)
    (h : q ≠ o.GetObjectPath) :
    Service.lookup { conn with objects := o :: conn.objects } q = conn.lookup q := by
  simp [Service.lookup, List.find?_cons, Ne.symm h]

@[simp] theorem Service.lookup_IdleCheck_UpdateTimestamp (conn : Service) (p : String) :
    conn.IdleCheck_UpdateTimestamp.lookup p = conn.lookup p := rfl

@[simp] theorem Service.lookup_IdleCheck_RefDec (conn : Service) (p : String) :
    conn.IdleCheck_RefDec.lookup p = conn.lookup p := rfl

@[simp] theorem Service.lookup_IdleCheck_RefInc (conn : Service) (p : String) :
    conn.IdleCheck_RefInc.lookup p = conn.lookup p := rfl

theorem Service.store_path (t : ConfigurationObject) (o : DBusObject) :
    (match o with
      | .config c => if c.object_path == t.object_path then DBusObject.config t else o
      | _ => o).GetObjectPath = o.GetObjectPath := by
  cases o with
  | config c =>
    by_cases hc : c.object_path = t.object_path
    · simp [hc, DBusObject.GetObjectPath]
    · simp [hc, DBusObject.GetObjectPath]
  | cfgalias a => rfl
  | manager m => rfl

theorem Service.paths_store (conn : Service) (t : ConfigurationObject) :
    (conn.store t).paths = conn.paths := by
  simp only [Service.paths, Service.store, List.map_map]
  apply List.map_congr_left
  intro o _
  exact Service.store_path t o

theorem Service.lookup_eq_none_iff (conn : Service) (p : String) :
    conn.lookup p = none ↔ p ∉ conn.paths := by
  simp [Service.lookup, Service.paths, List.find?_eq_none]

theorem Service.lookup_store_eq_none (conn : Service) (t : ConfigurationObject) (p : String) :
    (conn.store t).lookup p = none ↔ conn.lookup p = none := by
  rw [Service.lookup_eq_none_iff, Service.lookup_eq_none_iff, Service.paths_store]

theorem dispatch_unknown (env : Env) (conn : Service) (p : String) (sender : uid_t) (call : Call)
    (h : conn.lookup p = none) : dispatch env conn p sender call = (.error .unknown_object, conn) := by
  simp [dispatch, h]

theorem dispatch_all_unknown (env : Env) (conn : Service) (p : String)
    (h : conn.lookup p = none) (calls : List (uid_t × Call)) :
    dispatch_all env conn (calls.map (fun c => (p, c.1, c.2)))
      = (calls.map (fun _ => Reply.error .unknown_object), conn) := by
  induction calls with
  | nil => rfl
  | cons c rest ih => simp [dispatch_all, dispatch_unknown env conn p _ _ h, ih]

/-! ## Sealing freezes the configuration -/

open ConfigurationObject

/-- C1: on a sealed configuration, whoever calls, `SetOption`, `AccessGrant` and
`AccessRevoke` are answered with the ReadOnly error and a write of `alias` or of
`public_access` is refused with the read-only property error; each leaves every
member of the configuration object, the exported objects and the registered
paths as they were. -/
theorem C1_sealed_rejects_mutation (env : Env) (this : ConfigurationObject) (conn : Service)
    (sender : uid_t) (params value : GVariant) (hsealed : this.readonly = true) :
    (∀ m, m = "SetOption" ∨ m = "AccessGrant" ∨ m = "AccessRevoke" →
      (this.callback_method_call env conn sender m params).reply
          = .error (.dbus_error "net.openvpn.v3.error.ReadOnly"
              "Configuration is sealed and readonly") ∧
        (this.callback_method_call env conn sender m params).self = some this ∧
        (this.callback_method_call env conn sender m params).conn.objects = conn.objects ∧
        (this.callback_method_call env conn sender m params).conn.paths = conn.paths) ∧
    (∀ p, p = "alias" ∨ p = "public_access" →
      (this.callback_set_property env conn sender p value).reply
          = .error (.property .G_IO_ERROR_READ_ONLY "Configuration object is read-only") ∧
        (this.callback_set_property env conn sender p value).self = some this ∧
        (this.callback_set_property env conn sender p value).conn.objects = conn.objects ∧
        (this.callback_set_property env conn sender p value).conn.paths = conn.paths) := by
  refine ⟨?_, ?_⟩
  · rintro m (rfl | rfl | rfl) <;>
      simp +decide [callback_method_call, hsealed, readonly_error, Service.paths,
        Service.IdleCheck_UpdateTimestamp]
  · rintro p (rfl | rfl) <;>
      simp [callback_set_property, hsealed, Service.paths, Service.IdleCheck_UpdateTimestamp]

/-- C1 at a sealed configuration owned by uid 1000, called by its owner. -/
theorem C1_sealed_rejects_mutation_witness :
    ({ demoConfig with readonly := true } : ConfigurationObject).readonly = true ∧
    (({ demoConfig with readonly := true } : ConfigurationObject).callback_method_call
        demoEnv demoService 1000 "AccessGrant" (.tuple_u 1001)).self
      = some { demoConfig with readonly := true } :=
  ⟨rfl, ((C1_sealed_rejects_mutation demoEnv { demoConfig with readonly := true } demoService
    1000 (.tuple_u 1001) (.boolean true) rfl).1 "AccessGrant" (Or.inr (Or.inl rfl))).2.1⟩

/-! ## Destruction -/

/-- C2: the alias outlives its configuration.  The configuration `demoAliased`
has the alias `foo`, and both are exported.  After its owner's `Remove` the
configuration's own path is no longer registered but the alias path still is,
with the alias object still naming the removed configuration; the same holds
for the single-use `demoSingleUse` after its owner's successful `Fetch`. -/
theorem C2_destruction_leaves_alias_registered :
    demoAliased.alias_obj = some demoAlias ∧
    demoAliasedService.lookup demoAliased.object_path = some (.config demoAliased) ∧
    demoAliasedService.lookup demoAlias.object_path = some (.cfgalias demoAlias) ∧
    (dispatch demoEnv demoAliasedService demoAliased.object_path 1000
        (.method_call "Remove" (.tuple_s ""))).1 = .return_value none ∧
    (dispatch demoEnv demoAliasedService demoAliased.object_path 1000
        (.method_call "Remove" (.tuple_s ""))).2.lookup demoAliased.object_path = none ∧
    (dispatch demoEnv demoAliasedService demoAliased.object_path 1000
        (.method_call "Remove" (.tuple_s ""))).2.lookup demoAlias.object_path
      = some (.cfgalias demoAlias) ∧
    (dispatch demoEnv demoAliasedService demoAliased.object_path 1000
        (.method_call "Remove" (.tuple_s ""))).2.paths
      = ["/net/openvpn/v3/configuration/aliases/foo", "/net/openvpn/v3/configuration"] ∧
    demoSingleUseService.lookup demoSingleUse.object_path = some (.config demoSingleUse) ∧
    (dispatch demoEnv demoSingleUseService demoSingleUse.object_path 1000
        (.method_call "Fetch" (.tuple_s ""))).1 = .return_value (some (.tuple_s "client")) ∧
    (dispatch demoEnv demoSingleUseService demoSingleUse.object_path 1000
        (.method_call "Fetch" (.tuple_s ""))).2.lookup demoSingleUse.object_path = none ∧
    (dispatch demoEnv demoSingleUseService demoSingleUse.object_path 1000
        (.method_call "Fetch" (.tuple_s ""))).2.lookup demoAlias.object_path
      = some (.cfgalias demoAlias) ∧
    (dispatch demoEnv
        (dispatch demoEnv demoAliasedService demoAliased.object_path 1000
          (.method_call "Remove" (.tuple_s ""))).2
        demoAlias.object_path 1001 (.get_property "config_path")).1
      = .return_value (some (.string demoAliased.object_path)) := by
  decide

/-! ## Property reads -/

/-- C3, refuted as stated: uid 1001 is neither the owner of `demoConfig` nor
granted, public access is off, and its read of `name` is denied. -/
theorem C3_read_name_denied :
    demoConfig.creds.owner ≠ 1001 ∧ 1001 ∉ demoConfig.creds.acl_list ∧
    demoConfig.creds.acl_public = false ∧
    (demoConfig.callback_get_property demoService 1001 "name").reply
      = .error .credentials := by
  decide

theorem DBusCredentials.CheckACL_strict (c : DBusCredentials) (sender : uid_t) :
    c.CheckACL sender false = decide (sender = c.owner ∨ sender ∈ c.acl_list) := by
  by_cases h1 : sender = c.owner <;> by_cases h2 : sender ∈ c.acl_list <;>
    simp [DBusCredentials.CheckACL, h1, h2]

/-- C3, amended: a read of `owner` returns the owner to every caller; a read of
`name`, `valid`, `readonly`, `single_use` or `persistent` returns the member to
a caller that is the owner or is granted access, and is denied to every other
caller; no read changes the configuration object or the exported objects. -/
theorem C3_property_reads (this : ConfigurationObject) (conn : Service) (sender : uid_t) :
    (this.callback_get_property conn sender "owner").reply
      = .return_value (some (.uint32 this.creds.owner)) ∧
    (this.callback_get_property conn sender "name").reply
      = (if sender = this.creds.owner ∨ sender ∈ this.creds.acl_list
          then .return_value (some (.string this.name)) else .error .credentials) ∧
    (this.callback_get_property conn sender "valid").reply
      = (if sender = this.creds.owner ∨ sender ∈ this.creds.acl_list
          then .return_value (some (.boolean this.valid)) else .error .credentials) ∧
    (this.callback_get_property conn sender "readonly").reply
      = (if sender = this.creds.owner ∨ sender ∈ this.creds.acl_list
          then .return_value (some (.boolean this.readonly)) else .error .credentials) ∧
    (this.callback_get_property conn sender "single_use").reply
      = (if sender = this.creds.owner ∨ sender ∈ this.creds.acl_list
          then .return_value (some (.boolean this.single_use)) else .error .credentials) ∧
    (this.callback_get_property conn sender "persistent").reply
      = (if sender = this.creds.owner ∨ sender ∈ this.creds.acl_list
          then .return_value (some (.boolean this.persistent)) else .error .credentials) ∧
    (∀ p, (this.callback_get_property conn sender p).self = some this ∧
      (this.callback_get_property conn sender p).conn.objects = conn.objects) := by
  refine ⟨?_, ?_, ?_, ?_, ?_, ?_, ?_⟩
  · simp [ConfigurationObject.callback_get_property, DBusCredentials.GetOwner]
  · by_cases h : sender = this.creds.owner ∨ sender ∈ this.creds.acl_list <;>
      simp +decide [ConfigurationObject.callback_get_property, DBusCredentials.CheckACL_strict, h]
  · by_cases h : sender = this.creds.owner ∨ sender ∈ this.creds.acl_list <;>
      simp +decide [ConfigurationObject.callback_get_property, DBusCredentials.CheckACL_strict, h]
  · by_cases h : sender = this.creds.owner ∨ sender ∈ this.creds.acl_list <;>
      simp +decide [ConfigurationObject.callback_get_property, DBusCredentials.CheckACL_strict, h]
  · by_cases h : sender = this.creds.owner ∨ sender ∈ this.creds.acl_list <;>
      simp +decide [ConfigurationObject.callback_get_property, DBusCredentials.CheckACL_strict, h]
  · by_cases h : sender = this.creds.owner ∨ sender ∈ this.creds.acl_list <;>
      simp +decide [ConfigurationObject.callback_get_property, DBusCredentials.CheckACL_strict, h]
  · intro p
    by_cases h1 : ("owner" == p) = true <;>
      by_cases h2 : this.creds.CheckACL sender false = true <;>
      simp only [ConfigurationObject.callback_get_property, h1, h2, if_true, if_false,
        Service.IdleCheck_UpdateTimestamp, and_self] <;> simp

/-! ## Fetching the profile -/

/-- C4: a single-use configuration exported at a path is gone from that path
after one successful `Fetch`: the caller receives the profile text, the path is
no longer registered, and every later call addressed to it, whoever sends it
and whatever it asks, is answered with the unknown-object error and changes
nothing. -/
theorem C4_single_use_fetch (env : Env) (conn : Service) (this : ConfigurationObject)
    (path : String) (sender : uid_t) (params : GVariant)
    (hlive : conn.lookup path = some (.config this))
    (hsingle : this.single_use = true)
    (hacl : this.creds.CheckACL sender true = true) :
    (dispatch env conn path sender (.method_call "Fetch" params)).1
      = .return_value (some (.tuple_s (env.string_export this.options))) ∧
    (dispatch env conn path sender (.method_call "Fetch" params)).2.lookup path = none ∧
    path ∉ (dispatch env conn path sender (.method_call "Fetch" params)).2.paths ∧
    ∀ calls : List (uid_t × Call),
      dispatch_all env (dispatch env conn path sender (.method_call "Fetch" params)).2
          (calls.map (fun c => (path, c.1, c.2)))
        = (calls.map (fun _ => Reply.error .unknown_object),
            (dispatch env conn path sender (.method_call "Fetch" params)).2) := by
  have hp : this.object_path = path := Service.lookup_path conn path _ hlive
  have hd : dispatch env conn path sender (.method_call "Fetch" params)
      = (.return_value (some (.tuple_s (env.string_export this.options))),
          this.destroy (conn.IdleCheck_UpdateTimestamp.RemoveObject path)) := by
    simp [dispatch, hlive, ConfigurationObject.handle, ConfigurationObject.callback_method_call,
      hsingle, hacl, hp]
  have hnone : (this.destroy (conn.IdleCheck_UpdateTimestamp.RemoveObject path)).lookup path
      = none := by
    simp [ConfigurationObject.destroy, Service.lookup_RemoveObject_self]
  rw [hd]
  exact ⟨rfl, hnone, (Service.lookup_eq_none_iff _ _).1 hnone,
    fun calls => dispatch_all_unknown env _ path hnone calls⟩

/-- C4 at a single-use copy of `demoConfig`, fetched by its owner. -/
theorem C4_single_use_fetch_witness :
    (dispatch demoEnv ⟨[.config { demoConfig with single_use := true }], ⟨1, 0⟩, 2⟩
        demoConfig.object_path 1000 (.method_call "Fetch" (.tuple_s ""))).2.lookup
      demoConfig.object_path = none :=
  (C4_single_use_fetch demoEnv ⟨[.config { demoConfig with single_use := true }], ⟨1, 0⟩, 2⟩
    { demoConfig with single_use := true } demoConfig.object_path 1000 (.tuple_s "")
    (by decide) rfl (by decide)).2.1

/-- C5: on a configuration with public access on, a caller that is neither the
owner nor granted access gets the profile text from `Fetch` and is denied by
`FetchJSON`, which leaves the configuration and the exported objects as they
were. -/
theorem C5_public_access_asymmetry (env : Env) (this : ConfigurationObject) (conn : Service)
    (sender : uid_t) (params : GVariant)
    (hpublic : this.creds.acl_public = true)
    (howner : sender ≠ this.creds.owner)
    (hgranted : sender ∉ this.creds.acl_list) :
    (this.callback_method_call env conn sender "Fetch" params).reply
      = .return_value (some (.tuple_s (env.string_export this.options))) ∧
    (this.callback_method_call env conn sender "FetchJSON" params).reply
      = .error .credentials ∧
    (this.callback_method_call env conn sender "FetchJSON" params).self = some this ∧
    (this.callback_method_call env conn sender "FetchJSON" params).conn.objects
      = conn.objects := by
  have h1 : this.creds.CheckACL sender true = true := by
    simp [DBusCredentials.CheckACL, hpublic]
  have h2 : this.creds.CheckACL sender false = false := by
    simp [DBusCredentials.CheckACL, howner, hgranted]
  refine ⟨?_, ?_, ?_, ?_⟩
  · by_cases hs : this.single_use = true <;>
      simp [ConfigurationObject.callback_method_call, h1, hs]
  · simp +decide [ConfigurationObject.callback_method_call, h2]
  · simp +decide [ConfigurationObject.callback_method_call, h2]
  · simp +decide [ConfigurationObject.callback_method_call, h2, Service.IdleCheck_UpdateTimestamp]

/-- C5 at `demoConfig` made public, called by uid 1001. -/
theorem C5_public_access_asymmetry_witness :
    (({ demoConfig with creds := ⟨1000, [], true⟩ } : ConfigurationObject).callback_method_call
        demoEnv demoService 1001 "Fetch" (.tuple_s "")).reply
      = .return_value (some (.tuple_s "client")) ∧
    (({ demoConfig with creds := ⟨1000, [], true⟩ } : ConfigurationObject).callback_method_call
        demoEnv demoService 1001 "FetchJSON" (.tuple_s "")).reply = .error .credentials :=
  ⟨(C5_public_access_asymmetry demoEnv { demoConfig with creds := ⟨1000, [], true⟩ }
      demoService 1001 (.tuple_s "") rfl (by decide) (by decide)).1,
   (C5_public_access_asymmetry demoEnv { demoConfig with creds := ⟨1000, [], true⟩ }
      demoService 1001 (.tuple_s "") rfl (by decide) (by decide)).2.1⟩

/-! ## Sealing -/

/-- C6: `Seal` called by anybody but the owner is denied and changes nothing;
called by the owner on a valid configuration it succeeds, sets `readonly` and
leaves every other member and the exported objects as they were; called by the
owner on a configuration that is not valid it is answered with the error
`net.openvpn.v3.error.InvalidData` (the invalid-state error) and changes
nothing, `readonly` included. -/
theorem C6_seal (env : Env) (this : ConfigurationObject) (conn : Service) (sender : uid_t)
    (params : GVariant) :
    (sender ≠ this.creds.owner →
      (this.callback_method_call env conn sender "Seal" params).reply = .error .credentials ∧
      (this.callback_method_call env conn sender "Seal" params).self = some this ∧
      (this.callback_method_call env conn sender "Seal" params).conn.objects = conn.objects) ∧
    (sender = this.creds.owner → this.valid = true →
      (this.callback_method_call env conn sender "Seal" params).reply = .return_value none ∧
      (this.callback_method_call env conn sender "Seal" params).self
        = some { object_path := this.object_path, creds := this.creds, name := this.name,
                 valid := this.valid, readonly := true, single_use := this.single_use,
                 persistent := this.persistent, alias_obj := this.alias_obj,
                 options := this.options } ∧
      (this.callback_method_call env conn sender "Seal" params).conn.objects = conn.objects) ∧
    (sender = this.creds.owner → this.valid = false →
      (this.callback_method_call env conn sender "Seal" params).reply
        = .error (.dbus_error "net.openvpn.v3.error.InvalidData"
            "Configuration is not currently valid") ∧
      (this.callback_method_call env conn sender "Seal" params).self = some this ∧
      (this.callback_method_call env conn sender "Seal" params).conn.objects = conn.objects) := by
  refine ⟨?_, ?_, ?_⟩
  · intro h
    simp +decide [ConfigurationObject.callback_method_call, DBusCredentials.CheckOwnerAccess, h,
      Service.IdleCheck_UpdateTimestamp]
  · intro h hv
    simp +decide [ConfigurationObject.callback_method_call, DBusCredentials.CheckOwnerAccess, h,
      hv, Service.IdleCheck_UpdateTimestamp]
  · intro h hv
    simp +decide [ConfigurationObject.callback_method_call, DBusCredentials.CheckOwnerAccess, h,
      hv, Service.IdleCheck_UpdateTimestamp]

/-- C6 at `demoConfig`: uid 1001 is denied, the owner seals it, and the owner
of a copy that is not valid gets the invalid-data error. -/
theorem C6_seal_witness :
    (demoConfig.callback_method_call demoEnv demoService 1001 "Seal" (.tuple_s "")).reply
      = .error .credentials ∧
    (demoConfig.callback_method_call demoEnv demoService 1000 "Seal" (.tuple_s "")).self
      = some { demoConfig with readonly := true } ∧
    (({ demoConfig with valid := false } : ConfigurationObject).callback_method_call
        demoEnv demoService 1000 "Seal" (.tuple_s "")).self
      = some { demoConfig with valid := false } :=
  ⟨((C6_seal demoEnv demoConfig demoService 1001 (.tuple_s "")).1 (by decide)).1,
   ((C6_seal demoEnv demoConfig demoService 1000 (.tuple_s "")).2.1 rfl rfl).2.1,
   ((C6_seal demoEnv { demoConfig with valid := false } demoService 1000
      (.tuple_s "")).2.2 rfl rfl).2.1⟩

/-! ## Sealing is one-way -/

theorem ConfigurationObject.method_call_sealed (env : Env) (this : ConfigurationObject)
    (conn : Service) (sender : uid_t) (method_name : String) (params : GVariant)
    (h : this.readonly = true) :
    (this.callback_method_call env conn sender method_name params).self = some this ∨
    (this.callback_method_call env conn sender method_name params).self = none := by
  unfold ConfigurationObject.callback_method_call
  simp only [h, if_true]
  split_ifs <;> first | (simp [h]; done) | (cases this; simp_all)

theorem ConfigurationObject.get_property_self (this : ConfigurationObject)
    (conn : Service) (sender : uid_t) (p : String) :
    (this.callback_get_property conn sender p).self = some this := by
  by_cases h1 : ("owner" == p) = true <;>
    by_cases h2 : this.creds.CheckACL sender false = true <;>
    simp only [ConfigurationObject.callback_get_property, h1, h2, if_true, if_false] <;> simp

theorem ConfigurationObject.set_property_sealed (env : Env) (this : ConfigurationObject)
    (conn : Service) (sender : uid_t) (p : String) (value : GVariant)
    (h : this.readonly = true) :
    (this.callback_set_property env conn sender p value).self = some this := by
  simp [ConfigurationObject.callback_set_property, h]

theorem ConfigurationObject.handle_sealed (env : Env) (this : ConfigurationObject)
    (conn : Service) (sender : uid_t) (call : Call) (h : this.readonly = true) :
    (this.handle env conn sender call).self = some this ∨
    (this.handle env conn sender call).self = none := by
  cases call with
  | method_call m params => exact ConfigurationObject.method_call_sealed env this conn sender m params h
  | get_property p => exact Or.inl (ConfigurationObject.get_property_self this conn sender p)
  | set_property p v => exact Or.inl (ConfigurationObject.set_property_sealed env this conn sender p v h)

theorem ConfigurationObject.run_sealed (env : Env) (calls : List (uid_t × Call)) :
    ∀ (this : ConfigurationObject) (conn : Service), this.readonly = true →
      (ConfigurationObject.run env this conn calls).1 = some this ∨
      (ConfigurationObject.run env this conn calls).1 = none := by
  induction calls with
  | nil => intro this conn _; exact Or.inl rfl
  | cons c rest ih =>
    intro this conn h
    obtain ⟨sender, call⟩ := c
    rcases ConfigurationObject.handle_sealed env this conn sender call h with h1 | h1
    · simp only [ConfigurationObject.run, h1]
      exact ih this _ h
    · simp [ConfigurationObject.run, h1]

/-- C7: a configuration object built by the constructor is not sealed, and the
constructor succeeds whenever the parser accepts the profile; and once
`readonly` is true it stays true: after any sequence of method calls, property
reads and property writes by any senders, a configuration that was sealed and
is still alive is sealed (it is in fact unchanged). -/
theorem C7_sealing_is_one_way (env : Env) :
    (∀ objpath creator cfgname cfgstr single_use persistent options,
      env.parse_from_config cfgstr = some options →
      ∃ o, ConfigurationObject.new env objpath creator
            (.tuple_ssbb cfgname cfgstr single_use persistent) = .ok o ∧
        o.readonly = false) ∧
    (∀ objpath creator params o,
      ConfigurationObject.new env objpath creator params = .ok o → o.readonly = false) ∧
    (∀ (this : ConfigurationObject) (conn : Service) (calls : List (uid_t × Call)),
      this.readonly = true →
      ∀ t, (ConfigurationObject.run env this conn calls).1 = some t →
        t.readonly = true ∧ t = this) := by
  refine ⟨?_, ?_, ?_⟩
  · intro objpath creator cfgname cfgstr single_use persistent options hparse
    simp [ConfigurationObject.new, hparse]
  · intro objpath creator params o h
    unfold ConfigurationObject.new at h
    split at h
    · split at h
      · cases h
      · cases h; rfl
    · cases h
  · intro this conn calls h t ht
    rcases ConfigurationObject.run_sealed env calls this conn h with h1 | h1
    · rw [h1] at ht; cases ht; exact ⟨h, rfl⟩
    · rw [h1] at ht; cases ht

/-- C7 at `demoConfig`: built by the constructor it is not sealed; once sealed
it is still sealed after a grant and a write of `public_access` by its owner
and a `Seal` from another uid. -/
theorem C7_sealing_is_one_way_witness :
    (∃ o, ConfigurationObject.new demoEnv "/net/openvpn/v3/configuration/x1" 1000
        (.tuple_ssbb "home" "client" false false) = .ok o ∧ o.readonly = false) ∧
    demoConfig.readonly = false ∧
    demoSealed.readonly = true ∧
    (ConfigurationObject.run demoEnv demoSealed demoService
        [(1000, .method_call "AccessGrant" (.tuple_u 1001)),
         (1000, .set_property "public_access" (.boolean true)),
         (1001, .method_call "Seal" (.tuple_s ""))]).1 = some demoSealed ∧
    demoSealed.readonly = true :=
  ⟨(C7_sealing_is_one_way demoEnv).1 "/net/openvpn/v3/configuration/x1" 1000 "home" "client"
      false false ⟨[["client"]]⟩ (by decide),
   (C7_sealing_is_one_way demoEnv).2.1 "/net/openvpn/v3/configuration/x1" 1000
      (.tuple_ssbb "home" "client" false false) demoConfig rfl,
   rfl, by decide,
   ((C7_sealing_is_one_way demoEnv).2.2 demoSealed demoService
      [(1000, .method_call "AccessGrant" (.tuple_u 1001)),
       (1000, .set_property "public_access" (.boolean true)),
       (1001, .method_call "Seal" (.tuple_s ""))] rfl demoSealed (by decide)).1⟩

/-! ## Aliases -/

theorem Service.lookup_store_cfgalias (conn : Service) (t : ConfigurationObject) (p : String)
    (a : ConfigurationAlias) (h : conn.lookup p = some (.cfgalias a)) :
    (conn.store t).lookup p = some (.cfgalias a) := by
  have hf : ((fun o : DBusObject => o.GetObjectPath == p) ∘ (fun o : DBusObject =>
      match o with
      | .config c => if c.object_path == t.object_path then DBusObject.config t else o
      | _ => o)) = (fun o : DBusObject => o.GetObjectPath == p) := by
    funext o
    simp only [Function.comp, Service.store_path t o]
  simp only [Service.lookup, Service.store, List.find?_map, hf]
  simp only [Service.lookup] at h
  rw [h]
  rfl

theorem ConfigurationAlias.new_obj_path_injective (env : Env) (n1 n2 : String)
    (h : ConfigurationAlias.new_obj_path env n1 = ConfigurationAlias.new_obj_path env n2) :
    n1 = n2 := by
  have h1 := congrArg String.data h
  simp only [ConfigurationAlias.new_obj_path, String.data_append] at h1
  exact String.ext (List.append_cancel_left h1)

theorem ConfigurationAlias.new_ok (env : Env) (aliasname cfgpath : String)
    (h : env.g_variant_is_object_path (ConfigurationAlias.new_obj_path env aliasname) = true) :
    ConfigurationAlias.new env aliasname cfgpath
      = .ok ⟨ConfigurationAlias.new_obj_path env aliasname, aliasname, cfgpath⟩ := by
  simp [ConfigurationAlias.new, h]

theorem ConfigurationAlias.new_eq_ok (env : Env) (aliasname cfgpath : String)
    (a : ConfigurationAlias) (h : ConfigurationAlias.new env aliasname cfgpath = .ok a) :
    a = ⟨ConfigurationAlias.new_obj_path env aliasname, aliasname, cfgpath⟩ := by
  unfold ConfigurationAlias.new at h
  split at h
  · cases h
  · cases h; rfl

theorem ConfigurationObject.set_alias_eq (env : Env) (this : ConfigurationObject)
    (conn : Service) (n : String) (hunsealed : this.readonly = false)
    (hvalid : env.g_variant_is_object_path (ConfigurationAlias.new_obj_path env n) = true) :
    this.callback_set_property env conn this.creds.owner "alias" (.string n)
      = match Service.RegisterObject
            (match this.alias_obj with
              | some a => conn.IdleCheck_UpdateTimestamp.RemoveObject a.object_path
              | none => conn.IdleCheck_UpdateTimestamp)
            (.cfgalias ⟨ConfigurationAlias.new_obj_path env n, n, this.object_path⟩) with
        | .ok conn1 =>
          ⟨.return_value (some (.property_response "alias" (.string n))),
            some { this with
              alias_obj := some ⟨ConfigurationAlias.new_obj_path env n, n, this.object_path⟩ },
            conn1⟩
        | .error err =>
          ⟨.error (.property .G_IO_ERROR_EXISTS err.getRawError),
            some { this with alias_obj := none },
            match this.alias_obj with
              | some a => conn.IdleCheck_UpdateTimestamp.RemoveObject a.object_path
              | none => conn.IdleCheck_UpdateTimestamp⟩ := by
  simp only [ConfigurationObject.callback_set_property, hunsealed,
    DBusCredentials.CheckOwnerAccess, g_variant_get_string,
    ConfigurationAlias.new_ok env n this.object_path hvalid, ConfigurationAlias.GetAlias]
  simp

theorem ConfigurationObject.set_alias_ok (env : Env) (this : ConfigurationObject)
    (conn : Service) (n : String) (hunsealed : this.readonly = false)
    (hvalid : env.g_variant_is_object_path (ConfigurationAlias.new_obj_path env n) = true)
    (hfree : (match this.alias_obj with
        | some a => conn.IdleCheck_UpdateTimestamp.RemoveObject a.object_path
        | none => conn.IdleCheck_UpdateTimestamp).lookup
          (ConfigurationAlias.new_obj_path env n) = none) :
    this.callback_set_property env conn this.creds.owner "alias" (.string n)
      = ⟨.return_value (some (.property_response "alias" (.string n))),
          some { this with
            alias_obj := some ⟨ConfigurationAlias.new_obj_path env n, n, this.object_path⟩ },
          { (match this.alias_obj with
              | some a => conn.IdleCheck_UpdateTimestamp.RemoveObject a.object_path
              | none => conn.IdleCheck_UpdateTimestamp) with
            objects := .cfgalias ⟨ConfigurationAlias.new_obj_path env n, n, this.object_path⟩ ::
              (match this.alias_obj with
              | some a => conn.IdleCheck_UpdateTimestamp.RemoveObject a.object_path
              | none => conn.IdleCheck_UpdateTimestamp).objects }⟩ := by
  rw [ConfigurationObject.set_alias_eq env this conn n hunsealed hvalid,
    Service.RegisterObject_ok _ _ (by simpa [DBusObject.GetObjectPath] using hfree)]

theorem Service.lookup_RemoveObject_of_none (conn : Service) (p q : String)
    (h : conn.lookup q = none) : (conn.RemoveObject p).lookup q = none := by
  by_cases hq : q = p
  · rw [hq]; exact Service.lookup_RemoveObject_self conn p
  · rw [Service.lookup_RemoveObject_ne conn p q hq]; exact h

theorem ConfigurationObject.alias_path_free (this : ConfigurationObject) (conn : Service)
    (p : String)
    (hfree : conn.lookup p = none ∨ ∃ a, this.alias_obj = some a ∧ a.object_path = p) :
    (match this.alias_obj with
      | some a => conn.IdleCheck_UpdateTimestamp.RemoveObject a.object_path
      | none => conn.IdleCheck_UpdateTimestamp).lookup p = none := by
  rcases hfree with h | ⟨a, ha, hp⟩
  · cases hao : this.alias_obj with
    | none => simpa using h
    | some a => exact Service.lookup_RemoveObject_of_none _ _ _ (by simpa using h)
  · rw [ha, ← hp]
    exact Service.lookup_RemoveObject_self _ _

/-- C8, refuted as stated: uid 1000 imports `home`, uid 2000 imports `work` and
gives it the alias `bar`; `home` is unsealed and `bar` is a valid alias name,
yet when the owner of `home` writes `alias = bar` the write fails with the
`G_IO_ERROR_EXISTS` property error, the owner's read of `alias` that follows
returns the empty string, and the object under the alias path of `bar` still
reports the path of `work`. -/
theorem C8_alias_name_in_use :
    (dispatch_all demoEnv demoEmptyService demoSharedCalls).2 = demoSharedService ∧
    demoSharedService.lookup "/net/openvpn/v3/configuration/x1" = some (.config demoConfig) ∧
    demoConfig.readonly = false ∧ demoConfig.creds.owner = 1000 ∧
    spec_valid_path_segment "bar" = true ∧
    demoEnv.g_variant_is_object_path (ConfigurationAlias.new_obj_path demoEnv "bar") = true ∧
    (demoConfig.callback_set_property demoEnv demoSharedService 1000 "alias"
        (.string "bar")).reply
      = .error (.property .G_IO_ERROR_EXISTS "An object is already exported at this path") ∧
    (demoConfig.callback_set_property demoEnv demoSharedService 1000 "alias"
        (.string "bar")).self = some demoConfig ∧
    (dispatch_all demoEnv demoSharedService
        [("/net/openvpn/v3/configuration/x1", 1000, .set_property "alias" (.string "bar")),
         ("/net/openvpn/v3/configuration/x1", 1000, .get_property "alias"),
         ("/net/openvpn/v3/configuration/aliases/bar", 1000, .get_property "config_path")]).1
      = [.error (.property .G_IO_ERROR_EXISTS "An object is already exported at this path"),
         .return_value (some (.string "")),
         .return_value (some (.string "/net/openvpn/v3/configuration/x2"))] := by
  decide

/-- C8, amended: when the owner of an unsealed configuration writes `alias = n`
for a name `n` whose alias path is a valid object path, and nothing is
exported at that path unless it is the path of the configuration's own
current alias, the write succeeds, the owner's read of `alias` that follows
returns exactly `n`, and the object registered under the alias path of `n` is
an alias object whose `config_path` property is the configuration's own path,
whoever reads it. -/
theorem C8_alias_round_trip (env : Env) (this : ConfigurationObject) (conn : Service)
    (n : String) (hunsealed : this.readonly = false)
    (hvalid : env.g_variant_is_object_path (ConfigurationAlias.new_obj_path env n) = true)
    (hfree : conn.lookup (ConfigurationAlias.new_obj_path env n) = none ∨
      ∃ a, this.alias_obj = some a ∧ a.object_path = ConfigurationAlias.new_obj_path env n) :
    ∃ t a,
      (this.callback_set_property env conn this.creds.owner "alias" (.string n)).reply
        = .return_value (some (.property_response "alias" (.string n))) ∧
      (this.callback_set_property env conn this.creds.owner "alias" (.string n)).self
        = some t ∧
      (t.callback_get_property
          (this.callback_set_property env conn this.creds.owner "alias" (.string n)).conn
          this.creds.owner "alias").reply = .return_value (some (.string n)) ∧
      (this.callback_set_property env conn this.creds.owner "alias" (.string n)).conn.lookup
          (ConfigurationAlias.new_obj_path env n) = some (.cfgalias a) ∧
      (∀ sender,
        (a.callback_get_property
          (this.callback_set_property env conn this.creds.owner "alias" (.string n)).conn
          sender "config_path").reply = .return_value (some (.string this.object_path))) ∧
      (∀ sender,
        (dispatch env
          ((this.callback_set_property env conn this.creds.owner "alias" (.string n)).conn.store t)
          (ConfigurationAlias.new_obj_path env n) sender
          (.get_property "config_path")).1 = .return_value (some (.string this.object_path))) := by
  rw [ConfigurationObject.set_alias_ok env this conn n hunsealed hvalid
    (ConfigurationObject.alias_path_free this conn _ hfree)]
  refine ⟨{ this with
      alias_obj := some ⟨ConfigurationAlias.new_obj_path env n, n, this.object_path⟩ },
    ⟨ConfigurationAlias.new_obj_path env n, n, this.object_path⟩, rfl, rfl, ?_, ?_, ?_, ?_⟩
  · simp +decide [ConfigurationObject.callback_get_property, DBusCredentials.CheckACL,
      ConfigurationAlias.GetAlias]
  · exact Service.lookup_cons_self _
      (.cfgalias ⟨ConfigurationAlias.new_obj_path env n, n, this.object_path⟩)
  · intro sender
    simp [ConfigurationAlias.callback_get_property]
  · intro sender
    have h := Service.lookup_store_cfgalias _
      { this with
        alias_obj := some ⟨ConfigurationAlias.new_obj_path env n, n, this.object_path⟩ } _ _
      (Service.lookup_cons_self
        (match this.alias_obj with
          | some a => conn.IdleCheck_UpdateTimestamp.RemoveObject a.object_path
          | none => conn.IdleCheck_UpdateTimestamp)
        (.cfgalias ⟨ConfigurationAlias.new_obj_path env n, n, this.object_path⟩))
    simp only [DBusObject.GetObjectPath] at h
    simp [dispatch, h, ConfigurationAlias.callback_get_property]

/-- C8 at `demoConfig` and the alias name `foo`, with nothing exported under
the alias path of `foo`. -/
theorem C8_alias_round_trip_witness :
    demoConfig.readonly = false ∧
    demoEnv.g_variant_is_object_path (ConfigurationAlias.new_obj_path demoEnv "foo") = true ∧
    demoService.lookup (ConfigurationAlias.new_obj_path demoEnv "foo") = none ∧
    ∃ t a,
      (demoConfig.callback_set_property demoEnv demoService 1000 "alias" (.string "foo")).self
        = some t ∧
      (t.callback_get_property
          (demoConfig.callback_set_property demoEnv demoService 1000 "alias"
            (.string "foo")).conn 1000 "alias").reply = .return_value (some (.string "foo")) ∧
      (demoConfig.callback_set_property demoEnv demoService 1000 "alias"
          (.string "foo")).conn.lookup "/net/openvpn/v3/configuration/aliases/foo"
        = some (.cfgalias a) ∧
      a.cfgpath = "/net/openvpn/v3/configuration/x1" := by
  refine ⟨rfl, by decide, by decide, ?_⟩
  obtain ⟨t, a, _, h2, h3, h4, h5, _⟩ :=
    C8_alias_round_trip demoEnv demoConfig demoService "foo" rfl (by decide)
      (Or.inl (by decide))
  refine ⟨t, a, h2, h3, h4, ?_⟩
  have := h5 0
  simpa [ConfigurationAlias.callback_get_property] using this

/-- C9, refuted as stated: `home` of uid 1000 has the alias `foo` and `work` of
uid 2000 has the alias `bar`; when the owner of `home` writes the valid name
`bar`, different from `foo`, the write fails with the `G_IO_ERROR_EXISTS`
property error: the alias path of `foo` is unregistered, the alias path of
`bar` is registered but names `work`, and `home` holds no alias at all. -/
theorem C9_second_alias_name_in_use :
    (dispatch_all demoEnv demoEmptyService (demoSharedCalls ++
        [("/net/openvpn/v3/configuration/x1", 1000,
          .set_property "alias" (.string "foo"))])).2 = demoSharedAliasedService ∧
    demoSharedAliasedService.lookup "/net/openvpn/v3/configuration/x1"
      = some (.config demoAliased) ∧
    demoAliased.readonly = false ∧ demoAliased.alias_obj = some demoAlias ∧
    ConfigurationAlias.new demoEnv "foo" demoAliased.object_path = .ok demoAlias ∧
    demoEnv.g_variant_is_object_path (ConfigurationAlias.new_obj_path demoEnv "bar") = true ∧
    "bar" ≠ "foo" ∧
    (demoAliased.callback_set_property demoEnv demoSharedAliasedService 1000 "alias"
        (.string "bar")).reply
      = .error (.property .G_IO_ERROR_EXISTS "An object is already exported at this path") ∧
    (demoAliased.callback_set_property demoEnv demoSharedAliasedService 1000 "alias"
        (.string "bar")).self = some { demoAliased with alias_obj := none } ∧
    (demoAliased.callback_set_property demoEnv demoSharedAliasedService 1000 "alias"
        (.string "bar")).conn.lookup "/net/openvpn/v3/configuration/aliases/foo" = none ∧
    (demoAliased.callback_set_property demoEnv demoSharedAliasedService 1000 "alias"
        (.string "bar")).conn.lookup "/net/openvpn/v3/configuration/aliases/bar"
      = some (.cfgalias demoBarAlias) ∧
    demoBarAlias.cfgpath = "/net/openvpn/v3/configuration/x2" := by
  refine ⟨by decide, by decide, rfl, rfl, rfl, by decide, by decide, by decide, by decide,
    by decide, by decide, rfl⟩

/-- C9, amended: when an unsealed configuration has the alias `n1` and its
owner writes a second alias name `n2`, different from `n1`, with a valid alias
path at which nothing is exported yet, the write succeeds; the alias path of
`n1` is no longer registered and every call addressed to it is answered with
the unknown-object error; the alias path of `n2` is registered with an alias
object pointing to the configuration; and the configuration holds the one
alias `n2`, its other members unchanged. -/
theorem C9_alias_replacement (env : Env) (this : ConfigurationObject) (conn : Service)
    (a1 : ConfigurationAlias) (n1 n2 : String)
    (hunsealed : this.readonly = false)
    (halias : this.alias_obj = some a1)
    (hbuilt : ConfigurationAlias.new env n1 this.object_path = .ok a1)
    (hvalid : env.g_variant_is_object_path (ConfigurationAlias.new_obj_path env n2) = true)
    (hne : n2 ≠ n1)
    (hfree : conn.lookup (ConfigurationAlias.new_obj_path env n2) = none) :
    ∃ t a2,
      ConfigurationAlias.new env n2 this.object_path = .ok a2 ∧
      (this.callback_set_property env conn this.creds.owner "alias" (.string n2)).reply
        = .return_value (some (.property_response "alias" (.string n2))) ∧
      (this.callback_set_property env conn this.creds.owner "alias" (.string n2)).self
        = some t ∧
      t = { this with alias_obj := some a2 } ∧
      a2.aliasname = n2 ∧
      (this.callback_set_property env conn this.creds.owner "alias" (.string n2)).conn.lookup
          (ConfigurationAlias.new_obj_path env n1) = none ∧
      (∀ sender call,
        dispatch env
          ((this.callback_set_property env conn this.creds.owner "alias" (.string n2)).conn.store t)
          (ConfigurationAlias.new_obj_path env n1) sender call
          = (.error .unknown_object,
              (this.callback_set_property env conn this.creds.owner "alias"
                (.string n2)).conn.store t)) ∧
      (this.callback_set_property env conn this.creds.owner "alias" (.string n2)).conn.lookup
          (ConfigurationAlias.new_obj_path env n2) = some (.cfgalias a2) := by
  have ha1 := ConfigurationAlias.new_eq_ok env n1 this.object_path a1 hbuilt
  have hpne : ConfigurationAlias.new_obj_path env n1 ≠ ConfigurationAlias.new_obj_path env n2 :=
    fun h => hne (ConfigurationAlias.new_obj_path_injective env n1 n2 h).symm
  have hset := ConfigurationObject.set_alias_ok env this conn n2 hunsealed hvalid
    (ConfigurationObject.alias_path_free this conn _ (Or.inl hfree))
  simp only [halias] at hset
  have hnone : Service.lookup
      { conn.IdleCheck_UpdateTimestamp.RemoveObject a1.object_path with
        objects := .cfgalias ⟨ConfigurationAlias.new_obj_path env n2, n2, this.object_path⟩ ::
          (conn.IdleCheck_UpdateTimestamp.RemoveObject a1.object_path).objects }
      (ConfigurationAlias.new_obj_path env n1) = none := by
    rw [Service.lookup_cons_ne _ _ _ (by simpa [DBusObject.GetObjectPath] using hpne)]
    rw [ha1]
    exact Service.lookup_RemoveObject_self _ _
  rw [hset]
  refine ⟨{ this with
      alias_obj := some ⟨ConfigurationAlias.new_obj_path env n2, n2, this.object_path⟩ },
    ⟨ConfigurationAlias.new_obj_path env n2, n2, this.object_path⟩,
    ConfigurationAlias.new_ok env n2 this.object_path hvalid, rfl, rfl, rfl, rfl, hnone, ?_,
    Service.lookup_cons_self _
      (.cfgalias ⟨ConfigurationAlias.new_obj_path env n2, n2, this.object_path⟩)⟩
  intro sender call
  exact dispatch_unknown env _ _ sender call ((Service.lookup_store_eq_none _ _ _).2 hnone)

/-- C9 at `demoAliased`, whose alias `foo` is replaced by `bar`. -/
theorem C9_alias_replacement_witness :
    demoAliased.readonly = false ∧ demoAliased.alias_obj = some demoAlias ∧
    ConfigurationAlias.new demoEnv "foo" demoAliased.object_path = .ok demoAlias ∧
    demoEnv.g_variant_is_object_path (ConfigurationAlias.new_obj_path demoEnv "bar") = true ∧
    "bar" ≠ "foo" ∧
    demoAliasedService.lookup (ConfigurationAlias.new_obj_path demoEnv "bar") = none ∧
    (demoAliased.callback_set_property demoEnv demoAliasedService 1000 "alias"
        (.string "bar")).conn.lookup "/net/openvpn/v3/configuration/aliases/foo" = none := by
  refine ⟨rfl, rfl, rfl, by decide, by decide, by decide, ?_⟩
  obtain ⟨t, a2, _, _, _, _, _, h, _, _⟩ :=
    C9_alias_replacement demoEnv demoAliased demoAliasedService demoAlias "foo" "bar"
      rfl rfl rfl (by decide) (by decide) (by decide)
  exact h

/-! ## Granting and revoking access -/

/-- C10: on an unsealed configuration, `AccessGrant(uid)` called by the owner
succeeds, and called again right after it succeeds again and leaves the
granted ids, and the whole configuration, as the first call left them, with
`uid` granted; likewise `AccessRevoke(uid)` succeeds twice in a row, the second
call changing nothing, with `uid` not granted; and revoking an id that is not
granted succeeds and changes nothing. -/
theorem C10_grant_revoke_idempotent (env : Env) (this : ConfigurationObject) (conn : Service)
    (uid : uid_t) (hunsealed : this.readonly = false) :
    (∃ t,
      (this.callback_method_call env conn this.creds.owner "AccessGrant" (.tuple_u uid)).reply
        = .return_value none ∧
      (this.callback_method_call env conn this.creds.owner "AccessGrant" (.tuple_u uid)).self
        = some t ∧
      uid ∈ t.creds.acl_list ∧
      (t.callback_method_call env
          (this.callback_method_call env conn this.creds.owner "AccessGrant" (.tuple_u uid)).conn
          this.creds.owner "AccessGrant" (.tuple_u uid)).reply = .return_value none ∧
      (t.callback_method_call env
          (this.callback_method_call env conn this.creds.owner "AccessGrant" (.tuple_u uid)).conn
          this.creds.owner "AccessGrant" (.tuple_u uid)).self = some t) ∧
    (∃ t,
      (this.callback_method_call env conn this.creds.owner "AccessRevoke" (.tuple_u uid)).reply
        = .return_value none ∧
      (this.callback_method_call env conn this.creds.owner "AccessRevoke" (.tuple_u uid)).self
        = some t ∧
      uid ∉ t.creds.acl_list ∧
      (t.callback_method_call env
          (this.callback_method_call env conn this.creds.owner "AccessRevoke" (.tuple_u uid)).conn
          this.creds.owner "AccessRevoke" (.tuple_u uid)).reply = .return_value none ∧
      (t.callback_method_call env
          (this.callback_method_call env conn this.creds.owner "AccessRevoke" (.tuple_u uid)).conn
          this.creds.owner "AccessRevoke" (.tuple_u uid)).self = some t) ∧
    (uid ∉ this.creds.acl_list →
      (this.callback_method_call env conn this.creds.owner "AccessRevoke" (.tuple_u uid)).reply
        = .return_value none ∧
      (this.callback_method_call env conn this.creds.owner "AccessRevoke" (.tuple_u uid)).self
        = some this) := by
  have hg : ∀ (o : ConfigurationObject) (c : Service), o.readonly = false →
      o.callback_method_call env c o.creds.owner "AccessGrant" (.tuple_u uid)
        = ⟨.return_value none, some { o with creds := o.creds.GrantAccess uid },
            c.IdleCheck_UpdateTimestamp⟩ := by
    intro o c h
    simp +decide [ConfigurationObject.callback_method_call, h, DBusCredentials.CheckOwnerAccess]
  have hr : ∀ (o : ConfigurationObject) (c : Service), o.readonly = false →
      o.callback_method_call env c o.creds.owner "AccessRevoke" (.tuple_u uid)
        = ⟨.return_value none, some { o with creds := o.creds.RevokeAccess uid },
            c.IdleCheck_UpdateTimestamp⟩ := by
    intro o c h
    simp +decide [ConfigurationObject.callback_method_call, h, DBusCredentials.CheckOwnerAccess]
  have hgg : (this.creds.GrantAccess uid).GrantAccess uid = this.creds.GrantAccess uid := by
    by_cases h : uid ∈ this.creds.acl_list <;> simp [DBusCredentials.GrantAccess, h]
  have hrr : (this.creds.RevokeAccess uid).RevokeAccess uid = this.creds.RevokeAccess uid := by
    simp [DBusCredentials.RevokeAccess, List.filter_filter]
  refine ⟨⟨{ this with creds := this.creds.GrantAccess uid }, ?_, ?_, ?_, ?_, ?_⟩,
    ⟨{ this with creds := this.creds.RevokeAccess uid }, ?_, ?_, ?_, ?_, ?_⟩, ?_⟩
  · rw [hg this conn hunsealed]
  · rw [hg this conn hunsealed]
  · by_cases h : uid ∈ this.creds.acl_list <;> simp [DBusCredentials.GrantAccess, h]
  · have := hg { this with creds := this.creds.GrantAccess uid }
      (this.callback_method_call env conn this.creds.owner "AccessGrant" (.tuple_u uid)).conn
      hunsealed
    simp only [DBusCredentials.GrantAccess] at this ⊢
    rw [this]
  · have := hg { this with creds := this.creds.GrantAccess uid }
      (this.callback_method_call env conn this.creds.owner "AccessGrant" (.tuple_u uid)).conn
      hunsealed
    simp only [hgg] at this
    simp only [DBusCredentials.GrantAccess] at this ⊢
    rw [this]
  · rw [hr this conn hunsealed]
  · rw [hr this conn hunsealed]
  · simp [DBusCredentials.RevokeAccess]
  · have := hr { this with creds := this.creds.RevokeAccess uid }
      (this.callback_method_call env conn this.creds.owner "AccessRevoke" (.tuple_u uid)).conn
      hunsealed
    simp only [DBusCredentials.RevokeAccess] at this ⊢
    rw [this]
  · have := hr { this with creds := this.creds.RevokeAccess uid }
      (this.callback_method_call env conn this.creds.owner "AccessRevoke" (.tuple_u uid)).conn
      hunsealed
    simp only [hrr] at this
    simp only [DBusCredentials.RevokeAccess] at this ⊢
    rw [this]
  · intro habs
    rw [hr this conn hunsealed]
    refine ⟨rfl, ?_⟩
    have : this.creds.RevokeAccess uid = this.creds := by
      simp only [DBusCredentials.RevokeAccess]
      have hf : this.creds.acl_list.filter (fun u => u != uid) = this.creds.acl_list := by
        rw [List.filter_eq_self]
        intro u hu
        have : u ≠ uid := fun e => habs (e ▸ hu)
        simpa using this
      rw [hf]
    simp [this]

/-- C10 at `demoConfig`, its owner granting and revoking uid 1001. -/
theorem C10_grant_revoke_idempotent_witness :
    demoConfig.readonly = false ∧
    (∃ t,
      (demoConfig.callback_method_call demoEnv demoService 1000 "AccessGrant"
        (.tuple_u 1001)).self = some t ∧
      1001 ∈ t.creds.acl_list ∧
      (t.callback_method_call demoEnv
          (demoConfig.callback_method_call demoEnv demoService 1000 "AccessGrant"
            (.tuple_u 1001)).conn 1000 "AccessGrant" (.tuple_u 1001)).self = some t) ∧
    1001 ∉ demoConfig.creds.acl_list ∧
    (demoConfig.callback_method_call demoEnv demoService 1000 "AccessRevoke"
        (.tuple_u 1001)).self = some demoConfig := by
  have h := C10_grant_revoke_idempotent demoEnv demoConfig demoService 1001 rfl
  obtain ⟨⟨t, _, h2, h3, _, h5⟩, _, h6⟩ := h
  exact ⟨rfl, ⟨t, h2, h3, h5⟩, by decide, (h6 (by decide)).2⟩

/-! ## Import -/

theorem Service.mem_paths_of_lookup (conn : Service) (p : String) (o : DBusObject)
    (h : conn.lookup p = some o) : p ∈ conn.paths := by
  by_contra hn
  rw [(Service.lookup_eq_none_iff conn p).2 hn] at h
  cases h

theorem ConfigManagerObject.import_eq (env : Env) (m : ConfigManagerObject) (conn : Service)
    (c : uid_t) (cfgname cfgstr : String) (single_use persistent : Bool) :
    m.callback_method_call env conn c "Import"
        (.tuple_ssbb cfgname cfgstr single_use persistent)
      = match env.parse_from_config cfgstr with
        | none =>
          ⟨.error (.exception "OptionList" "parse_from_config"), some m,
            { conn.IdleCheck_UpdateTimestamp with uuid_state := conn.uuid_state + 1 }⟩
        | some options =>
          match Service.RegisterObject
              (Service.IdleCheck_RefInc
                { conn.IdleCheck_UpdateTimestamp with uuid_state := conn.uuid_state + 1 })
              (.config
                { object_path :=
                    env.generate_path_uuid env.OpenVPN3DBus_rootp_configuration 'x'
                      conn.uuid_state
                  creds := DBusCredentials.new c
                  name := cfgname
                  valid := true
                  readonly := false
                  single_use := single_use
                  persistent := persistent
                  alias_obj := none
                  options := options }) with
          | .ok conn1 =>
            ⟨.return_value (some (.tuple_o
                (env.generate_path_uuid env.OpenVPN3DBus_rootp_configuration 'x'
                  conn.uuid_state))), some m, conn1⟩
          | .error err =>
            ⟨.error err, some m,
              Service.IdleCheck_RefInc
                { conn.IdleCheck_UpdateTimestamp with uuid_state := conn.uuid_state + 1 }⟩ := by
  cases h : env.parse_from_config cfgstr <;>
    simp [ConfigManagerObject.callback_method_call, ConfigurationObject.new, h,
      Service.IdleCheck_UpdateTimestamp]

/-- C11: `Import(name, raw_content, single_use, persistent)` by a caller with
uid `c` succeeds whenever the parser accepts the content and nothing is
exported yet at the generated path, and whenever it succeeds the returned path
is registered and names a configuration object at that path whose owner is
`c`, whose name, single-use and persistent flags are the call's arguments,
which is valid, not sealed, has no alias, has nobody granted and public access
off, and holds the parsed content; the idle checker's reference count is one
more than before. -/
theorem C11_import_postcondition (env : Env) (m : ConfigManagerObject) (conn : Service)
    (c : uid_t) (cfgname cfgstr : String) (single_use persistent : Bool) :
    (∀ options, env.parse_from_config cfgstr = some options →
      conn.lookup (env.generate_path_uuid env.OpenVPN3DBus_rootp_configuration 'x'
        conn.uuid_state) = none →
      ∃ path, (m.callback_method_call env conn c "Import"
          (.tuple_ssbb cfgname cfgstr single_use persistent)).reply
        = .return_value (some (.tuple_o path))) ∧
    (∀ path, (m.callback_method_call env conn c "Import"
          (.tuple_ssbb cfgname cfgstr single_use persistent)).reply
        = .return_value (some (.tuple_o path)) →
      ∃ o,
        (m.callback_method_call env conn c "Import"
          (.tuple_ssbb cfgname cfgstr single_use persistent)).conn.lookup path
          = some (.config o) ∧
        path ∈ (m.callback_method_call env conn c "Import"
          (.tuple_ssbb cfgname cfgstr single_use persistent)).conn.paths ∧
        o.object_path = path ∧ o.creds.owner = c ∧ o.name = cfgname ∧
        o.single_use = single_use ∧ o.persistent = persistent ∧
        o.readonly = false ∧ o.valid = true ∧ o.alias_obj = none ∧
        o.creds.acl_list = [] ∧ o.creds.acl_public = false ∧
        env.parse_from_config cfgstr = some o.options ∧
        (m.callback_method_call env conn c "Import"
          (.tuple_ssbb cfgname cfgstr single_use persistent)).conn.idle_checker.refcount
          = conn.idle_checker.refcount + 1) := by
  rw [ConfigManagerObject.import_eq]
  constructor
  · intro options h hfree
    rw [h]
    simp only []
    rw [Service.RegisterObject_ok _ _ (by exact hfree)]
    exact ⟨_, rfl⟩
  · intro path
    cases h : env.parse_from_config cfgstr with
    | none => intro hreply; cases hreply
    | some options =>
      simp only []
      cases h2 : conn.lookup
          (env.generate_path_uuid env.OpenVPN3DBus_rootp_configuration 'x' conn.uuid_state) with
      | some o1 =>
        rw [Service.RegisterObject_error _ _ o1 (by exact h2)]
        intro hreply
        cases hreply
      | none =>
        rw [Service.RegisterObject_ok _ _ (by exact h2)]
        intro hreply
        simp only [Reply.return_value.injEq, Option.some.injEq, GVariant.tuple_o.injEq] at hreply
        subst hreply
        have hl := Service.lookup_cons_self
          (Service.IdleCheck_RefInc
            { conn.IdleCheck_UpdateTimestamp with uuid_state := conn.uuid_state + 1 })
          (.config
            { object_path :=
                env.generate_path_uuid env.OpenVPN3DBus_rootp_configuration 'x' conn.uuid_state
              creds := DBusCredentials.new c
              name := cfgname
              valid := true
              readonly := false
              single_use := single_use
              persistent := persistent
              alias_obj := none
              options := options })
        exact ⟨_, hl, Service.mem_paths_of_lookup _ _ _ hl, rfl, rfl, rfl, rfl, rfl, rfl, rfl,
          rfl, rfl, rfl, rfl, rfl⟩

/-- C11 at `demoService`: uid 1001 imports a one-line profile as a single-use
configuration named `work`. -/
theorem C11_import_postcondition_witness :
    (ConfigManagerObject.callback_method_call demoEnv ⟨"/net/openvpn/v3/configuration"⟩
        demoService 1001 "Import" (.tuple_ssbb "work" "client" true false)).reply
      = .return_value (some (.tuple_o "/net/openvpn/v3/configuration/x2")) ∧
    ∃ o,
      (ConfigManagerObject.callback_method_call demoEnv ⟨"/net/openvpn/v3/configuration"⟩
        demoService 1001 "Import" (.tuple_ssbb "work" "client" true false)).conn.lookup
          "/net/openvpn/v3/configuration/x2" = some (.config o) ∧
      o.creds.owner = 1001 ∧ o.name = "work" ∧ o.single_use = true ∧ o.readonly = false ∧
      (ConfigManagerObject.callback_method_call demoEnv ⟨"/net/openvpn/v3/configuration"⟩
        demoService 1001 "Import"
          (.tuple_ssbb "work" "client" true false)).conn.idle_checker.refcount = 2 := by
  have hreply : (ConfigManagerObject.callback_method_call demoEnv
      ⟨"/net/openvpn/v3/configuration"⟩ demoService 1001 "Import"
      (.tuple_ssbb "work" "client" true false)).reply
      = .return_value (some (.tuple_o "/net/openvpn/v3/configuration/x2")) := by decide
  obtain ⟨o, h1, _, _, h4, h5, h6, _, h8, _, _, _, _, _, h14⟩ :=
    (C11_import_postcondition demoEnv ⟨"/net/openvpn/v3/configuration"⟩ demoService 1001
      "work" "client" true false).2 _ hreply
  exact ⟨hreply, o, h1, h4, h5, h6, h8, h14⟩

/-! ## Denied calls -/

/-- C12: a call whose authorization check fails changes nothing.  When the
read check fails, `Fetch` (also on a single-use configuration) and `FetchJSON`
are denied; when the owner check fails, `Seal` and `Remove` are denied,
`SetOption`, `AccessGrant` and `AccessRevoke` are denied (or refused as
read-only when the configuration is sealed, before the check is made), and a
write of `alias` or `public_access` is denied (or refused as read-only).  In
every case the configuration object is alive with every member as before, and
the exported objects and registered paths are as before. -/
theorem C12_denied_calls_change_nothing (env : Env) (this : ConfigurationObject)
    (conn : Service) (sender : uid_t) (params value : GVariant) :
    (this.creds.CheckACL sender true = false →
      (this.callback_method_call env conn sender "Fetch" params).reply = .error .credentials ∧
      (this.callback_method_call env conn sender "Fetch" params).self = some this ∧
      (this.callback_method_call env conn sender "Fetch" params).conn.objects = conn.objects ∧
      (this.callback_method_call env conn sender "Fetch" params).conn.paths = conn.paths) ∧
    (this.creds.CheckACL sender false = false →
      (this.callback_method_call env conn sender "FetchJSON" params).reply
        = .error .credentials ∧
      (this.callback_method_call env conn sender "FetchJSON" params).self = some this ∧
      (this.callback_method_call env conn sender "FetchJSON" params).conn.objects
        = conn.objects ∧
      (this.callback_method_call env conn sender "FetchJSON" params).conn.paths = conn.paths) ∧
    (this.creds.CheckOwnerAccess sender = false →
      (∀ m, m = "Seal" ∨ m = "Remove" →
        (this.callback_method_call env conn sender m params).reply = .error .credentials ∧
        (this.callback_method_call env conn sender m params).self = some this ∧
        (this.callback_method_call env conn sender m params).conn.objects = conn.objects ∧
        (this.callback_method_call env conn sender m params).conn.paths = conn.paths) ∧
      (∀ m, m = "SetOption" ∨ m = "AccessGrant" ∨ m = "AccessRevoke" →
        (this.callback_method_call env conn sender m params).reply
          = (if this.readonly then ConfigurationObject.readonly_error
              else .error .credentials) ∧
        (this.callback_method_call env conn sender m params).self = some this ∧
        (this.callback_method_call env conn sender m params).conn.objects = conn.objects ∧
        (this.callback_method_call env conn sender m params).conn.paths = conn.paths) ∧
      (∀ p, p = "alias" ∨ p = "public_access" →
        (this.callback_set_property env conn sender p value).reply
          = (if this.readonly
              then .error (.property .G_IO_ERROR_READ_ONLY "Configuration object is read-only")
              else .error .property_credentials) ∧
        (this.callback_set_property env conn sender p value).self = some this ∧
        (this.callback_set_property env conn sender p value).conn.objects = conn.objects ∧
        (this.callback_set_property env conn sender p value).conn.paths = conn.paths)) := by
  refine ⟨?_, ?_, ?_⟩
  · intro h
    simp [ConfigurationObject.callback_method_call, h, Service.paths,
      Service.IdleCheck_UpdateTimestamp]
  · intro h
    simp +decide [ConfigurationObject.callback_method_call, h, Service.paths,
      Service.IdleCheck_UpdateTimestamp]
  · intro h
    refine ⟨?_, ?_, ?_⟩
    · rintro m (rfl | rfl) <;>
        simp +decide [ConfigurationObject.callback_method_call, h, Service.paths,
          Service.IdleCheck_UpdateTimestamp]
    · rintro m (rfl | rfl | rfl) <;> by_cases hr : this.readonly = true <;>
        simp +decide [ConfigurationObject.callback_method_call, h, hr, Service.paths,
          Service.IdleCheck_UpdateTimestamp]
    · rintro p (rfl | rfl) <;> by_cases hr : this.readonly = true <;>
        simp +decide [ConfigurationObject.callback_set_property, h, hr, Service.paths,
          Service.IdleCheck_UpdateTimestamp]

/-- C12 at `demoSingleUse` and `demoAliased`, called by uid 1001, which is
neither owner nor granted: the denied `Fetch` leaves the single-use
configuration alive and the denied `Remove` leaves the paths registered. -/
theorem C12_denied_calls_change_nothing_witness :
    demoSingleUse.creds.CheckACL 1001 true = false ∧
    (demoSingleUse.callback_method_call demoEnv demoSingleUseService 1001 "Fetch"
        (.tuple_s "")).self = some demoSingleUse ∧
    demoSingleUse.creds.CheckACL 1001 false = false ∧
    (demoSingleUse.callback_method_call demoEnv demoSingleUseService 1001 "FetchJSON"
        (.tuple_s "")).reply = .error .credentials ∧
    demoAliased.creds.CheckOwnerAccess 1001 = false ∧
    (demoAliased.callback_method_call demoEnv demoAliasedService 1001 "Remove"
        (.tuple_s "")).conn.paths = demoAliasedService.paths ∧
    (demoAliased.callback_method_call demoEnv demoAliasedService 1001 "AccessGrant"
        (.tuple_u 1001)).self = some demoAliased ∧
    (demoAliased.callback_set_property demoEnv demoAliasedService 1001 "public_access"
        (.boolean true)).self = some demoAliased :=
  ⟨rfl,
   ((C12_denied_calls_change_nothing demoEnv demoSingleUse demoSingleUseService 1001
      (.tuple_s "") (.boolean true)).1 rfl).2.1,
   rfl,
   ((C12_denied_calls_change_nothing demoEnv demoSingleUse demoSingleUseService 1001
      (.tuple_s "") (.boolean true)).2.1 rfl).1,
   rfl,
   (((C12_denied_calls_change_nothing demoEnv demoAliased demoAliasedService 1001
      (.tuple_s "") (.boolean true)).2.2 rfl).1 "Remove" (Or.inr rfl)).2.2.2,
   (((C12_denied_calls_change_nothing demoEnv demoAliased demoAliasedService 1001
      (.tuple_u 1001) (.boolean true)).2.2 rfl).2.1 "AccessGrant" (Or.inr (Or.inl rfl))).2.1,
   (((C12_denied_calls_change_nothing demoEnv demoAliased demoAliasedService 1001
      (.tuple_s "") (.boolean true)).2.2 rfl).2.2 "public_access" (Or.inr rfl)).2.1⟩

/-! ## A refused alias name -/

/-- C13, refuted as stated: `a/b` is not a path segment, yet when the owner of
`demoAliased`, which has the alias `foo`, writes `alias = a/b` the write
succeeds, the configuration holds the alias `a/b` and the owner's read of
`alias` that follows returns `a/b`, not the empty string. -/
theorem C13_slash_name_accepted :
    demoAliased.readonly = false ∧ demoAliased.alias_obj = some demoAlias ∧
    demoAliasedService.lookup "/net/openvpn/v3/configuration/x1" = some (.config demoAliased) ∧
    spec_valid_path_segment "a/b" = false ∧
    (demoAliased.callback_set_property demoEnv demoAliasedService 1000 "alias"
        (.string "a/b")).reply
      = .return_value (some (.property_response "alias" (.string "a/b"))) ∧
    (demoAliased.callback_set_property demoEnv demoAliasedService 1000 "alias"
        (.string "a/b")).self
      = some { demoAliased with
          alias_obj := some ⟨"/net/openvpn/v3/configuration/aliases/a/b", "a/b",
            "/net/openvpn/v3/configuration/x1"⟩ } ∧
    (dispatch_all demoEnv demoAliasedService
        [("/net/openvpn/v3/configuration/x1", 1000, .set_property "alias" (.string "a/b")),
         ("/net/openvpn/v3/configuration/x1", 1000, .get_property "alias")]).1
      = [.return_value (some (.property_response "alias" (.string "a/b"))),
         .return_value (some (.string "a/b"))] := by
  decide

/-- C13, amended: when an unsealed configuration has the alias `n1` and its owner writes
an alias name whose alias path (the configuration root, `/aliases/` and the
name) is not a valid object path, the write fails with
the `G_IO_ERROR_EXISTS` property error (the name error); afterwards the
configuration has no alias, its other members unchanged, the owner's read of
`alias` returns the empty string, and the alias path of `n1` is no longer
registered, so a call addressed to it is answered with the unknown-object
error. -/
theorem C13_failed_alias_write_drops_alias (env : Env) (this : ConfigurationObject)
    (conn : Service) (a1 : ConfigurationAlias) (n1 bad : String)
    (hunsealed : this.readonly = false)
    (halias : this.alias_obj = some a1)
    (hbuilt : ConfigurationAlias.new env n1 this.object_path = .ok a1)
    (hinvalid : env.g_variant_is_object_path (ConfigurationAlias.new_obj_path env bad) = false) :
    (this.callback_set_property env conn this.creds.owner "alias" (.string bad)).reply
      = .error (.property .G_IO_ERROR_EXISTS "Specified alias is invalid") ∧
    (this.callback_set_property env conn this.creds.owner "alias" (.string bad)).self
      = some { this with alias_obj := none } ∧
    (({ this with alias_obj := none } : ConfigurationObject).callback_get_property
        (this.callback_set_property env conn this.creds.owner "alias" (.string bad)).conn
        this.creds.owner "alias").reply = .return_value (some (.string "")) ∧
    (this.callback_set_property env conn this.creds.owner "alias" (.string bad)).conn.lookup
        (ConfigurationAlias.new_obj_path env n1) = none ∧
    (∀ sender call,
      dispatch env
        ((this.callback_set_property env conn this.creds.owner "alias" (.string bad)).conn.store
          { this with alias_obj := none })
        (ConfigurationAlias.new_obj_path env n1) sender call
        = (.error .unknown_object,
            (this.callback_set_property env conn this.creds.owner "alias"
              (.string bad)).conn.store { this with alias_obj := none })) := by
  have ha1 := ConfigurationAlias.new_eq_ok env n1 this.object_path a1 hbuilt
  have hset : this.callback_set_property env conn this.creds.owner "alias" (.string bad)
      = ⟨.error (.property .G_IO_ERROR_EXISTS "Specified alias is invalid"),
          some { this with alias_obj := none },
          conn.IdleCheck_UpdateTimestamp.RemoveObject (ConfigurationAlias.new_obj_path env n1)⟩ := by
    simp [ConfigurationObject.callback_set_property, hunsealed,
      DBusCredentials.CheckOwnerAccess, g_variant_get_string, ConfigurationAlias.new, hinvalid,
      halias, ha1, DBusError.getRawError]
  rw [hset]
  refine ⟨rfl, rfl, ?_, Service.lookup_RemoveObject_self _ _, ?_⟩
  · simp +decide [ConfigurationObject.callback_get_property, DBusCredentials.CheckACL]
  · intro sender call
    exact dispatch_unknown env _ _ sender call
      ((Service.lookup_store_eq_none _ _ _).2 (Service.lookup_RemoveObject_self _ _))

/-- C13 at `demoAliased`, whose owner writes the alias name `fo-o`. -/
theorem C13_failed_alias_write_drops_alias_witness :
    demoAliased.readonly = false ∧ demoAliased.alias_obj = some demoAlias ∧
    ConfigurationAlias.new demoEnv "foo" demoAliased.object_path = .ok demoAlias ∧
    demoEnv.g_variant_is_object_path (ConfigurationAlias.new_obj_path demoEnv "fo-o") = false ∧
    (demoAliased.callback_set_property demoEnv demoAliasedService 1000 "alias"
        (.string "fo-o")).self = some demoConfig ∧
    (demoAliased.callback_set_property demoEnv demoAliasedService 1000 "alias"
        (.string "fo-o")).conn.lookup "/net/openvpn/v3/configuration/aliases/foo" = none :=
  ⟨rfl, rfl, rfl, by decide,
   (C13_failed_alias_write_drops_alias demoEnv demoAliased demoAliasedService demoAlias
      "foo" "fo-o" rfl rfl rfl (by decide)).2.1,
   (C13_failed_alias_write_drops_alias demoEnv demoAliased demoAliasedService demoAlias
      "foo" "fo-o" rfl rfl rfl (by decide)).2.2.2.1⟩

/-! ## SetOption -/

/-- C14: on an unsealed configuration, `SetOption` called by the owner with any
key and value replies success and leaves every member of the configuration
object, the parsed options included, and the exported objects unchanged; a
`Fetch` after the call gets the reply a `Fetch` before it gets, whoever
fetches. -/
theorem C14_set_option_changes_nothing (env : Env) (this : ConfigurationObject)
    (conn : Service) (key val : String) (hunsealed : this.readonly = false) :
    (this.callback_method_call env conn this.creds.owner "SetOption"
        (.tuple_ss key val)).reply = .return_value none ∧
    (this.callback_method_call env conn this.creds.owner "SetOption"
        (.tuple_ss key val)).self = some this ∧
    (this.callback_method_call env conn this.creds.owner "SetOption"
        (.tuple_ss key val)).conn.objects = conn.objects ∧
    (∀ t, (this.callback_method_call env conn this.creds.owner "SetOption"
        (.tuple_ss key val)).self = some t →
      t.options = this.options ∧
      ∀ sender params,
        (t.callback_method_call env
            (this.callback_method_call env conn this.creds.owner "SetOption"
              (.tuple_ss key val)).conn sender "Fetch" params).reply
          = (this.callback_method_call env conn sender "Fetch" params).reply) := by
  have hset : this.callback_method_call env conn this.creds.owner "SetOption"
      (.tuple_ss key val) = ⟨.return_value none, some this, conn.IdleCheck_UpdateTimestamp⟩ := by
    simp +decide [ConfigurationObject.callback_method_call, hunsealed,
      DBusCredentials.CheckOwnerAccess]
  rw [hset]
  refine ⟨rfl, rfl, rfl, ?_⟩
  intro t ht
  cases ht
  refine ⟨rfl, ?_⟩
  intro sender params
  by_cases h1 : this.creds.CheckACL sender true = true <;>
    by_cases h2 : this.single_use = true <;>
    simp [ConfigurationObject.callback_method_call, h1, h2]

/-- C14 at `demoConfig`, whose owner sets the option `foo` to `bar`. -/
theorem C14_set_option_changes_nothing_witness :
    demoConfig.readonly = false ∧
    (demoConfig.callback_method_call demoEnv demoService 1000 "SetOption"
        (.tuple_ss "foo" "bar")).reply = .return_value none ∧
    (demoConfig.callback_method_call demoEnv demoService 1000 "SetOption"
        (.tuple_ss "foo" "bar")).self = some demoConfig :=
  ⟨rfl,
   (C14_set_option_changes_nothing demoEnv demoConfig demoService "foo" "bar" rfl).1,
   (C14_set_option_changes_nothing demoEnv demoConfig demoService "foo" "bar" rfl).2.1⟩

end ConfigMgr
